import Mathlib

/-
Verification of the Flotilla spot-fleet orchestration engine.

The development shallowly embeds the two source files of the repository:

* `src/lib.rs` — `FlotillaBuilder` (descriptor registry, `add_set`,
  `set_max_duration`) and the phase pipeline of `FlotillaBuilder::run`:
  security-group/key-pair provisioning, spot-capacity submission,
  spot-request polling, request cancellation, instance-readiness polling,
  concurrent bootstrap, user callback, and teardown.
* `src/ssh.rs` — `Session::connect`'s TCP retry loop, handshake and
  public-key authentication.

All cloud/API/network effects are factored into an environment record
(`Env`, respectively `ConnEnv` for the SSH session) giving each external
call's response; `run` becomes the deterministic function `runM` producing
the trace of issued external calls (`List Ev`) together with an outcome.
Rust `panic!`/`unwrap`/`expect` aborts are modelled by the distinguished
outcome `RunRes.panic`, `?`-propagated `anyhow` errors by `RunRes.err`
(the anyhow context string is modelled as `context ++ ": " ++ cause`), and
loops take explicit fuel, `RunRes.spin` marking fuel exhaustion (the model
artefact standing for "still looping").  Rust `HashMap`s are modelled by
association lists with replace-on-insert semantics; iteration order of a
`HashMap` (unspecified in Rust) is determinized to list order, which none
of the verified claims depend on.
-/

namespace Flotilla

/-- Outcome of a (partial) run: normal value, `anyhow` error propagated by
`?`, Rust panic, or out of fuel (the loop was still running). -/
inductive RunRes (α : Type) where
  | ok : α → RunRes α
  | err : String → RunRes α
  | panic : String → RunRes α
  | spin : RunRes α
  deriving DecidableEq, Repr

/-- Whether an outcome is an `anyhow` error returned by the function. -/
def RunRes.isErr {α : Type} : RunRes α → Bool
  | RunRes.err _ => true
  | _ => false

/-- Sequencing of trace-producing computations: on success continue and
append traces, otherwise propagate the failure with the trace so far. -/
def seqT {E α β : Type} : (List E × RunRes α) → (α → List E × RunRes β) → List E × RunRes β
  | (t, RunRes.ok a), k => ((t ++ (k a).1 : List E), (k a).2)
  | (t, RunRes.err e), _ => (t, RunRes.err e)
  | (t, RunRes.panic e), _ => (t, RunRes.panic e)
  | (t, RunRes.spin), _ => (t, RunRes.spin)

/-- Association list standing for Rust's `HashMap<String, α>`. -/
abbrev AMap (α : Type) := List (String × α)

/-- Rust `HashMap::get` / index lookup. -/
def AMap.lookupA {α : Type} : AMap α → String → Option α
  | [], _ => none
  | (k, v) :: rest, key => if k = key then some v else AMap.lookupA rest key

/-- Rust `HashMap::insert`: replaces the entry when the key is present. -/
def AMap.insertA {α : Type} : AMap α → String → α → AMap α
  | [], key, v => [(key, v)]
  | (k, w) :: rest, key, v =>
      if k = key then (k, v) :: rest else (k, w) :: AMap.insertA rest key v

/-- Rust `HashMap::remove`: returns the removed value (if any) and the rest. -/
def AMap.removeA {α : Type} : AMap α → String → Option α × AMap α
  | [], _ => (none, [])
  | (k, v) :: rest, key =>
      if k = key then (some v, rest)
      else ((AMap.removeA rest key).1, (k, v) :: (AMap.removeA rest key).2)

/-- Number of entries carrying a given key (1 for a well-formed map that
contains the key). -/
def AMap.countKey {α : Type} : AMap α → String → Nat
  | [], _ => 0
  | (k, _) :: rest, key => (if k = key then 1 else 0) + AMap.countKey rest key

/-- Struct `MachineSetup` from `src/lib.rs`: instance shape, image, and the
bootstrap closure.  The closure itself is opaque; it is carried as an
identifier `setup : Nat`, its behaviour living in the environment
(`Env.setupRun`). -/
structure MachineSetup where
  instance_type : String
  ami : String
  setup : Nat
  deriving DecidableEq, Repr

/-- Struct `FlotillaBuilder` from `src/lib.rs`: named descriptors plus the
(unused) `max_duration` field. -/
structure FlotillaBuilder where
  descriptors : AMap (MachineSetup × Nat)
  max_duration : Int
  deriving DecidableEq, Repr

/-- Impl `FlotillaBuilder::default()`: empty descriptors, `max_duration = 60`. -/
def FlotillaBuilder.defaultB : FlotillaBuilder := ⟨[], 60⟩

/-- Method `FlotillaBuilder::add_set`: `self.descriptors.insert(name, (setup, number))`. -/
def FlotillaBuilder.add_set (b : FlotillaBuilder) (name : String) (number : Nat)
    (setup : MachineSetup) : FlotillaBuilder :=
  ⟨AMap.insertA b.descriptors name (setup, number), b.max_duration⟩

/-- Method `FlotillaBuilder::set_max_duration`: `self.max_duration = hours as i64 * 60`. -/
def FlotillaBuilder.set_max_duration (b : FlotillaBuilder) (hours : Nat) : FlotillaBuilder :=
  ⟨b.descriptors, (hours : Int) * 60⟩

/-- Struct `Machine` from `src/lib.rs`; the attached `ssh::Session` is reduced to
its presence (`Option Unit`). -/
structure Machine where
  ssh : Option Unit
  instance_type : String
  private_ip : String
  public_ip : String
  dns : String
  deriving DecidableEq, Repr

/-- The fleet handed to the callback: `HashMap<String, Vec<Machine>>`. -/
abbrev Fleet := AMap (List Machine)

/-- Models `machines.entry(name).or_insert_with(Vec::new).push(machine)`. -/
def Fleet.pushMachine : Fleet → String → Machine → Fleet
  | [], name, mach => [(name, [mach])]
  | (k, ms) :: rest, name, mach =>
      if k = name then (k, ms ++ [mach]) :: rest
      else (k, ms) :: Fleet.pushMachine rest name mach

/-- Total number of machines across all groups of a fleet. -/
def fleetSize (f : Fleet) : Nat :=
  (f.map (fun p => p.2.length)).sum

/-- One element of a `describe_spot_instance_requests` response
(`rusoto_ec2::SpotInstanceRequest`, the fields `run` reads). -/
structure SirView where
  state : Option String
  spot_instance_request_id : Option String
  instance_id : Option String
  deriving DecidableEq, Repr

/-- One element of a `describe_instances` response
(`rusoto_ec2::Instance`, the fields `run` reads); `state` is
`Option<InstanceState>` whose `name` is itself an `Option<String>`. -/
structure InstView where
  state : Option (Option String)
  instance_type : Option String
  private_ip_address : Option String
  public_ip_address : Option String
  public_dns_name : Option String
  instance_id : Option String
  deriving DecidableEq, Repr

/-- Struct `rusoto_ec2::Reservation`: optional instance list. -/
structure Reservation where
  instances : Option (List InstView)
  deriving DecidableEq, Repr

/-- External calls issued by `run`, in order; this is the observable
request trace of a run. -/
inductive Ev where
  | createSG : String → String → Ev
  | authSG : String → Ev
  | createKP : String → Ev
  | reqSpot : String → Nat → String → String → List String → String → Ev
  | descSpot : List String → Ev
  | sleepMs : Nat → Ev
  | cancelSpot : List String → Ev
  | descInst : List String → Ev
  | connectSSH : String → Ev
  | runSetup : String → String → Ev
  | callCallback : Ev
  | termInst : List String → Ev
  | delKP : String → Ev
  deriving DecidableEq, Repr

/-- Responses of every external collaborator of `run`: the EC2 API, the
temporary key file, the SSH connect/bootstrap closures, and the user
callback.  Poll responses are functions of the loop-iteration index. -/
structure Env where
  createSG : Except String (Option String)
  authSG : Except String Unit
  createKP : Except String (Option String)
  tmpNew : Except String Unit
  tmpWrite : Except String Unit
  reqSpot : String → Except String (Option (List (Option String)))
  descSpot : Nat → Except String (Option (List SirView))
  cancelSpot : Except String Unit
  descInst : Nat → Except String (Option (List Reservation))
  connect : String → Except String Unit
  setupRun : Nat → String → Except String Unit
  callback : Fleet → Except String Unit
  terminate : Nat → Except String Unit
  deleteKey : Except String Unit

/-- Security-group and key-pair provisioning, `src/lib.rs` lines 76-143:
create the security group (random suffix supplied as `sgSuffix`),
authorize ingress, create the key pair (suffix `keySuffix`), persist the
private key.  Returns the group id and the key name. -/
def provisionPhase (env : Env) (sgSuffix keySuffix : String) :
    List Ev × RunRes (String × String) :=
  match env.createSG with
  | Except.error e =>
      ([Ev.createSG ("flotilla_security_" ++ sgSuffix)
          "Security group for Flotilla Spot Instances"],
       RunRes.err ("Failed to create security group for machines: " ++ e))
  | Except.ok none =>
      ([Ev.createSG ("flotilla_security_" ++ sgSuffix)
          "Security group for Flotilla Spot Instances"],
       RunRes.panic "No Group ID found with the newly created security group")
  | Except.ok (some gid) =>
    match env.authSG with
    | Except.error e =>
        ([Ev.createSG ("flotilla_security_" ++ sgSuffix)
            "Security group for Flotilla Spot Instances", Ev.authSG gid],
         RunRes.err ("Updating Security Group Failed: " ++ e))
    | Except.ok _ =>
      match env.createKP with
      | Except.error e =>
          ([Ev.createSG ("flotilla_security_" ++ sgSuffix)
              "Security group for Flotilla Spot Instances", Ev.authSG gid,
            Ev.createKP ("flotilla_key_" ++ keySuffix)],
           RunRes.err ("Failed to generate new key pair: " ++ e))
      | Except.ok none =>
          ([Ev.createSG ("flotilla_security_" ++ sgSuffix)
              "Security group for Flotilla Spot Instances", Ev.authSG gid,
            Ev.createKP ("flotilla_key_" ++ keySuffix)],
           RunRes.panic "No Key material found for this key")
      | Except.ok (some _) =>
        match env.tmpNew with
        | Except.error e =>
            ([Ev.createSG ("flotilla_security_" ++ sgSuffix)
                "Security group for Flotilla Spot Instances", Ev.authSG gid,
              Ev.createKP ("flotilla_key_" ++ keySuffix)],
             RunRes.err ("Failed to create temporary file for keypair: " ++ e))
        | Except.ok _ =>
          match env.tmpWrite with
          | Except.error e =>
              ([Ev.createSG ("flotilla_security_" ++ sgSuffix)
                  "Security group for Flotilla Spot Instances", Ev.authSG gid,
                Ev.createKP ("flotilla_key_" ++ keySuffix)],
               RunRes.err ("could not write private key to file: " ++ e))
          | Except.ok _ =>
              ([Ev.createSG ("flotilla_security_" ++ sgSuffix)
                  "Security group for Flotilla Spot Instances", Ev.authSG gid,
                Ev.createKP ("flotilla_key_" ++ keySuffix)],
               RunRes.ok (gid, "flotilla_key_" ++ keySuffix))

/-- The `filter_map` over one spot-request response, `src/lib.rs` lines
173-180: ids with `spot_instance_request_id = Some` are appended to the
request-id list and recorded in `id_to_name`. -/
def extendIds (name : String) :
    List (Option String) → List String → AMap String → List String × AMap String
  | [], ids, m => (ids, m)
  | none :: rest, ids, m => extendIds name rest ids m
  | some sid :: rest, ids, m =>
      extendIds name rest (ids ++ [sid]) (AMap.insertA m sid name)

/-- Spot-capacity submission, `src/lib.rs` lines 145-181: one
`request_spot_instances` per descriptor; records closure ids in
`setup_fns`, request ids in order, and the id→group-name map. -/
def submitPhase (env : Env) (gid kname : String) :
    List (String × (MachineSetup × Nat)) → AMap Nat → List String → AMap String →
    List Ev × RunRes (AMap Nat × List String × AMap String)
  | [], sf, ids, m => ([], RunRes.ok (sf, ids, m))
  | (name, (setup, number)) :: rest, sf, ids, m =>
    match env.reqSpot name with
    | Except.error e =>
        ([Ev.reqSpot name number setup.ami setup.instance_type [gid] kname],
         RunRes.err ("Failed to request spot instances for " ++ name ++ ": " ++ e))
    | Except.ok none =>
        ([Ev.reqSpot name number setup.ami setup.instance_type [gid] kname],
         RunRes.err "spot_instance_requests should always return spot instance requests.")
    | Except.ok (some sirs) =>
        (Ev.reqSpot name number setup.ami setup.instance_type [gid] kname ::
           (submitPhase env gid kname rest (AMap.insertA sf name setup.setup)
             (extendIds name sirs ids m).1 (extendIds name sirs ids m).2).1,
         (submitPhase env gid kname rest (AMap.insertA sf name setup.setup)
             (extendIds name sirs ids m).1 (extendIds name sirs ids m).2).2)

/-- Flag `any_open` from `src/lib.rs` lines 194-197: some request's state is
`"open"` (a missing state counts as not open). -/
def anyOpen (v : List SirView) : Bool :=
  v.any (fun sir => decide (sir.state = some "open"))

/-- The classification `filter_map`, `src/lib.rs` lines 201-220, as a fold
carrying `all_active`, `id_to_name`, and the collected instance ids.  A
missing state or a missing instance id skips the element via `?` without
clearing `all_active`; a non-`"active"` state clears it; `expect` calls
panic. -/
def classifyGo : Bool → AMap String → List String → List SirView →
    RunRes (Bool × AMap String × List String)
  | aa, m, ids, [] => RunRes.ok (aa, m, ids)
  | aa, m, ids, sir :: rest =>
    match sir.state with
    | none => classifyGo aa m ids rest
    | some s =>
      if s = "active" then
        match sir.spot_instance_request_id with
        | none => RunRes.panic "spot instance must have spot instance request id"
        | some rid =>
          match AMap.removeA m rid with
          | (none, _) => RunRes.panic "every spot request id is made of some machine set"
          | (some name, m2) =>
            match sir.instance_id with
            | none => classifyGo aa m2 ids rest
            | some iid => classifyGo aa (AMap.insertA m2 iid name) (ids ++ [iid]) rest
      else classifyGo false m ids rest

/-- Classification of a settled describe response (`all_active` starts
true, instance ids start empty). -/
def classifySpots (m : AMap String) (sirs : List SirView) :
    RunRes (Bool × AMap String × List String) :=
  classifyGo true m [] sirs

/-- Spot-request polling, `src/lib.rs` lines 184-226: describe the full
original batch; while any request is `open`, sleep 500 ms and repeat; on
the first settled response classify it and exit. -/
def spotPoll (env : Env) (sirIds : List String) :
    Nat → Nat → AMap String → List Ev × RunRes (Bool × AMap String × List String)
  | 0, _, _ => ([], RunRes.spin)
  | fuel + 1, k, m =>
    match env.descSpot k with
    | Except.error e =>
        ([Ev.descSpot sirIds], RunRes.err ("Failed to describe spot instances: " ++ e))
    | Except.ok resp =>
      if anyOpen (resp.getD []) then
        (Ev.descSpot sirIds :: Ev.sleepMs 500 :: (spotPoll env sirIds fuel (k + 1) m).1,
         (spotPoll env sirIds fuel (k + 1) m).2)
      else
        ([Ev.descSpot sirIds], classifySpots m (resp.getD []))

/-- Request cancellation, `src/lib.rs` lines 228-234: one
`cancel_spot_instance_requests` call carrying all original request ids. -/
def cancelStep (env : Env) (sirIds : List String) : List Ev × RunRes Unit :=
  ([Ev.cancelSpot sirIds],
   match env.cancelSpot with
   | Except.error e => RunRes.err ("failed to cancel spot instances: " ++ e)
   | Except.ok _ => RunRes.ok ())

/-- Flattening of a describe-instances response:
`for reservation { for instance in reservation.instances... }`. -/
def flattenResv (rs : List Reservation) : List InstView :=
  rs.flatMap (fun r => r.instances.getD [])

/-- One readiness iteration over the described instances, `src/lib.rs`
lines 255-285, starting from `all_machine_are_ready = true` and a cleared
map: a non-`running` state or a missing public address clears the flag and
skips the instance; otherwise a `Machine` is built and pushed under its
group name. -/
def buildFleet (m : AMap String) : List InstView → Bool → Fleet → RunRes (Bool × Fleet)
  | [], ready, f => RunRes.ok (ready, f)
  | inst :: rest, ready, f =>
    match inst.state with
    | none => RunRes.panic "called Option::unwrap() on a None value"
    | some nameOpt =>
      if (nameOpt.getD "") ≠ "running" then buildFleet m rest false f
      else
        match inst.public_ip_address with
        | none => buildFleet m rest false f
        | some pip =>
          match inst.instance_type with
          | none => RunRes.panic "called Option::unwrap() on a None value"
          | some ity =>
            match inst.private_ip_address with
            | none => RunRes.panic "called Option::unwrap() on a None value"
            | some prip =>
              match inst.instance_id with
              | none => RunRes.panic "called Option::unwrap() on a None value"
              | some iid =>
                match AMap.lookupA m iid with
                | none => RunRes.panic "no entry found for key"
                | some name =>
                    buildFleet m rest ready
                      (Fleet.pushMachine f name
                        ⟨none, ity, prip, pip, inst.public_dns_name.getD ""⟩)

/-- Readiness polling, `src/lib.rs` lines 236-286: describe all collected
instances, rebuild the fleet from scratch each iteration, exit the first
iteration in which every described instance is running with a public
address (no sleep between iterations). -/
def readyLoop (env : Env) (m : AMap String) (ids : List String) :
    Nat → Nat → List Ev × RunRes Fleet
  | 0, _ => ([], RunRes.spin)
  | fuel + 1, k =>
    match env.descInst k with
    | Except.error e =>
        ([Ev.descInst ids], RunRes.err ("Failed to describe spot instances: " ++ e))
    | Except.ok resp =>
      match buildFleet m (flattenResv (resp.getD [])) true [] with
      | RunRes.ok (ready, fleet) =>
        if ready then ([Ev.descInst ids], RunRes.ok fleet)
        else
          (Ev.descInst ids :: (readyLoop env m ids fuel (k + 1)).1,
           (readyLoop env m ids fuel (k + 1)).2)
      | RunRes.err e => ([Ev.descInst ids], RunRes.err e)
      | RunRes.panic e => ([Ev.descInst ids], RunRes.panic e)
      | RunRes.spin => ([Ev.descInst ids], RunRes.spin)

/-- Bootstrap of one group's machines, `src/lib.rs` lines 295-311
(`par_iter_mut` determinized to list order): connect to
`public_ip:22`, run the group's setup closure, attach the session; a
failure of either is `unwrap`ped, i.e. panics. -/
def bootMachines (env : Env) (name : String) (sid : Nat) :
    List Machine → List Ev × RunRes (List Machine)
  | [] => ([], RunRes.ok [])
  | mach :: rest =>
    match env.connect (mach.public_ip ++ ":22") with
    | Except.error e =>
        ([Ev.connectSSH (mach.public_ip ++ ":22")],
         RunRes.panic ("Faield to ssh to " ++ name ++ " machine " ++ mach.public_ip ++ ": " ++ e))
    | Except.ok _ =>
      match env.setupRun sid mach.public_ip with
      | Except.error e =>
          ([Ev.connectSSH (mach.public_ip ++ ":22"), Ev.runSetup name mach.public_ip],
           RunRes.panic ("setup procedure for " ++ name ++ " machine failed: " ++ e))
      | Except.ok _ =>
        match (bootMachines env name sid rest).2 with
        | RunRes.ok ms =>
            (Ev.connectSSH (mach.public_ip ++ ":22") :: Ev.runSetup name mach.public_ip ::
               (bootMachines env name sid rest).1,
             RunRes.ok ({ mach with ssh := some () } :: ms))
        | r =>
            (Ev.connectSSH (mach.public_ip ++ ":22") :: Ev.runSetup name mach.public_ip ::
               (bootMachines env name sid rest).1,
             r)

/-- Bootstrap across all groups, `src/lib.rs` lines 293-312: per group,
index `setup_fns` by the group name (a missing entry panics) and bootstrap
its machines. -/
def bootstrapPhase (env : Env) (sf : AMap Nat) : Fleet → List Ev × RunRes Fleet
  | [] => ([], RunRes.ok [])
  | (name, ms) :: rest =>
    match AMap.lookupA sf name with
    | none => ([], RunRes.panic "no entry found for key")
    | some sid =>
      match (bootMachines env name sid ms).2 with
      | RunRes.ok ms2 =>
        match (bootstrapPhase env sf rest).2 with
        | RunRes.ok rest2 =>
            ((bootMachines env name sid ms).1 ++ (bootstrapPhase env sf rest).1,
             RunRes.ok ((name, ms2) :: rest2))
        | r =>
            ((bootMachines env name sid ms).1 ++ (bootstrapPhase env sf rest).1, r)
      | RunRes.err e => ((bootMachines env name sid ms).1, RunRes.err e)
      | RunRes.panic e => ((bootMachines env name sid ms).1, RunRes.panic e)
      | RunRes.spin => ((bootMachines env name sid ms).1, RunRes.spin)

/-- Teardown, `src/lib.rs` lines 317-348: `terminate_instances` twice with
the same collected instance-id list, then `delete_key_pair`; each call's
error is propagated by `?`, aborting the rest.  (The security-group
deletion is commented out in the source.) -/
def teardownPhase (env : Env) (inst : List String) (kname : String) :
    List Ev × RunRes Unit :=
  match env.terminate 0 with
  | Except.error e =>
      ([Ev.termInst inst], RunRes.err ("Failed to terminate flotilla instances: " ++ e))
  | Except.ok _ =>
    match env.terminate 1 with
    | Except.error e =>
        ([Ev.termInst inst, Ev.termInst inst],
         RunRes.err ("Failed to terminate flotilla instances: " ++ e))
    | Except.ok _ =>
      match env.deleteKey with
      | Except.error e =>
          ([Ev.termInst inst, Ev.termInst inst, Ev.delKP kname],
           RunRes.err ("Failed to delete key pair: " ++ e))
      | Except.ok _ =>
          ([Ev.termInst inst, Ev.termInst inst, Ev.delKP kname], RunRes.ok ())

/-- Lines 292-348 of `src/lib.rs`: the `if all_active` block guarding
bootstrap and the user callback (whose error is propagated by `?`,
returning before teardown), followed by the unconditional teardown. -/
def postFleet (env : Env) (kname : String) (allActive : Bool) (sf : AMap Nat)
    (inst : List String) (fleet : Fleet) : List Ev × RunRes Unit :=
  if allActive then
    match (bootstrapPhase env sf fleet).2 with
    | RunRes.ok fleet2 =>
      match env.callback fleet2 with
      | Except.error e =>
          ((bootstrapPhase env sf fleet).1 ++ [Ev.callCallback],
           RunRes.err ("flotilla main routine failed: " ++ e))
      | Except.ok _ =>
          ((bootstrapPhase env sf fleet).1 ++ [Ev.callCallback] ++
             (teardownPhase env inst kname).1,
           (teardownPhase env inst kname).2)
    | RunRes.err e => ((bootstrapPhase env sf fleet).1, RunRes.err e)
    | RunRes.panic e => ((bootstrapPhase env sf fleet).1, RunRes.panic e)
    | RunRes.spin => ((bootstrapPhase env sf fleet).1, RunRes.spin)
  else
    teardownPhase env inst kname

/-- Method `FlotillaBuilder::run` (`src/lib.rs` lines 70-351) as the composition
of the phases, given the environment, the two random name suffixes, and
fuel for the two polling loops. -/
def runM (env : Env) (sgSuffix keySuffix : String) (fuel1 fuel2 : Nat)
    (b : FlotillaBuilder) : List Ev × RunRes Unit :=
  seqT (provisionPhase env sgSuffix keySuffix) (fun gk =>
  seqT (submitPhase env gk.1 gk.2 b.descriptors [] [] []) (fun sim =>
  seqT (spotPoll env sim.2.1 fuel1 0 sim.2.2) (fun aim =>
  seqT (cancelStep env sim.2.1) (fun _ =>
  seqT (readyLoop env aim.2.1 aim.2.2 fuel2 0) (fun fleet =>
  postFleet env gk.2 aim.1 sim.1 aim.2.2 fleet)))))

/-! ### The SSH session (`src/ssh.rs`) -/

/-- Classification of the `io::Error` kind of a failed TCP connect
attempt, as matched at `src/ssh.rs` lines 37-44. -/
inductive IoK where
  | connRefused
  | timedOut
  | otherErr
  deriving DecidableEq, Repr

/-- Observable steps of `Session::connect`. -/
inductive ConnEv where
  | tcpTry : ConnEv
  | sleepSec : Nat → ConnEv
  | handshakeTry : ConnEv
  | authTry : ConnEv
  deriving DecidableEq, Repr

/-- External behaviour seen by `Session::connect`: the outcome of the
`k`-th TCP connect attempt (`none` = connected), and of session creation,
handshake and public-key authentication. -/
structure ConnEnv where
  tcp : Nat → Option IoK
  sessNew : Except String Unit
  handshake : Except String Unit
  auth : Except String Unit

/-- The TCP retry loop of `Session::connect`, `src/ssh.rs` lines 22-47.
The deadline check `start.elapsed() > timeout` at lines 31-33 has an empty
body in the source (its `panic!` is commented out), so it is a no-op and
the loop retries until a connect succeeds: on connection-refused or
timed-out it sleeps 1 second first, on any other error it retries at
once.  Returns the index of the successful attempt. -/
def tcpLoop (env : ConnEnv) : Nat → Nat → List ConnEv × RunRes Nat
  | 0, _ => ([], RunRes.spin)
  | fuel + 1, k =>
    match env.tcp k with
    | none => ([ConnEv.tcpTry], RunRes.ok k)
    | some IoK.connRefused =>
        (ConnEv.tcpTry :: ConnEv.sleepSec 1 :: (tcpLoop env fuel (k + 1)).1,
         (tcpLoop env fuel (k + 1)).2)
    | some IoK.timedOut =>
        (ConnEv.tcpTry :: ConnEv.sleepSec 1 :: (tcpLoop env fuel (k + 1)).1,
         (tcpLoop env fuel (k + 1)).2)
    | some IoK.otherErr =>
        (ConnEv.tcpTry :: (tcpLoop env fuel (k + 1)).1,
         (tcpLoop env fuel (k + 1)).2)

/-- Method `Session::connect`, `src/ssh.rs` lines 16-64: the TCP retry loop, then
session creation, handshake, and public-key authentication, each error
propagated immediately by `?` with its context. -/
def sessionConnect (env : ConnEnv) (fuel : Nat) : List ConnEv × RunRes Unit :=
  seqT (tcpLoop env fuel 0) (fun _ =>
    match env.sessNew with
    | Except.error e => ([], RunRes.err ("Creating ssh session failed: " ++ e))
    | Except.ok _ =>
      match env.handshake with
      | Except.error e =>
          ([ConnEv.handshakeTry], RunRes.err ("Failed to perform ssh handshake: " ++ e))
      | Except.ok _ =>
        match env.auth with
        | Except.error e =>
            ([ConnEv.handshakeTry, ConnEv.authTry],
             RunRes.err ("Failed to authenticate ssh session: " ++ e))
        | Except.ok _ => ([ConnEv.handshakeTry, ConnEv.authTry], RunRes.ok ()))

/-! ### Concrete inputs used by witnesses and counterexamples -/

/-- A spot request still `open` (first poll iteration of the happy path). -/
def sirOpenR1 : SirView := ⟨some "open", some "r1", none⟩

/-- Spot request `r1` settled `active` with instance `i1`. -/
def sirActiveR1 : SirView := ⟨some "active", some "r1", some "i1"⟩

/-- Spot request `r2` settled `failed` (never became active). -/
def sirFailedR2 : SirView := ⟨some "failed", some "r2", none⟩

/-- Instance `i1` described as running with a public address. -/
def instI1 : InstView :=
  ⟨some (some "running"), some "t2.micro", some "172.31.0.5", some "1.2.3.4",
   some "ec2-1-2-3-4", some "i1"⟩

/-- Happy-path environment: one request `r1`, open on the first poll
iteration, active with instance `i1` afterwards; everything succeeds. -/
def envOk : Env :=
  ⟨Except.ok (some "sg-1"), Except.ok (), Except.ok (some "PEM"),
   Except.ok (), Except.ok (),
   fun _ => Except.ok (some [some "r1"]),
   fun k => if k = 0 then Except.ok (some [sirOpenR1]) else Except.ok (some [sirActiveR1]),
   Except.ok (),
   fun _ => Except.ok (some [⟨some [instI1]⟩]),
   fun _ => Except.ok (),
   fun _ _ => Except.ok (),
   fun _ => Except.ok (),
   fun _ => Except.ok (),
   Except.ok ()⟩

/-- A builder with one group `g` of one machine. -/
def bOk : FlotillaBuilder :=
  FlotillaBuilder.add_set FlotillaBuilder.defaultB "g" 1 ⟨"t2.micro", "ami-1", 0⟩

/-- Environment in which group `g` submits two requests `r1`, `r2`; `r1`
settles `active` (instance `i1`, which comes up running) while `r2`
settles `failed`, so `all_active` is false. -/
def envC1 : Env :=
  { envOk with
    reqSpot := fun _ => Except.ok (some [some "r1", some "r2"]),
    descSpot := fun _ => Except.ok (some [sirActiveR1, sirFailedR2]) }

/-- A builder with one group `g` of two machines. -/
def bC1 : FlotillaBuilder :=
  FlotillaBuilder.add_set FlotillaBuilder.defaultB "g" 2 ⟨"t2.micro", "ami-1", 0⟩

/-- Happy path except that the user callback fails with `boom`. -/
def envC2 : Env :=
  { envOk with callback := fun _ => Except.error "boom" }

/-- Happy path except that group `g`'s bootstrap closure fails with
`boom`. -/
def envC4 : Env :=
  { envOk with setupRun := fun _ _ => Except.error "boom" }

/-- A host whose every TCP connect attempt fails with connection-refused
(`Session::connect`'s pathological input: the address never becomes
reachable). -/
def envRefused : ConnEnv :=
  ⟨fun _ => some IoK.connRefused, Except.ok (), Except.ok (), Except.ok ()⟩

/-! ### Event classification -/

/-- Events of the phases preceding the cancellation call (provisioning,
submission, spot polling). -/
def preCancelEv : Ev → Bool
  | Ev.createSG _ _ => true
  | Ev.authSG _ => true
  | Ev.createKP _ => true
  | Ev.reqSpot _ _ _ _ _ _ => true
  | Ev.descSpot _ => true
  | Ev.sleepMs _ => true
  | _ => false

/-- The event is a `cancel_spot_instance_requests` call. -/
def isCancelEv : Ev → Bool
  | Ev.cancelSpot _ => true
  | _ => false

/-- The event is a `terminate_instances` call. -/
def isTermEv : Ev → Bool
  | Ev.termInst _ => true
  | _ => false

/-- The event is a `delete_key_pair` call. -/
def isDelKPEv : Ev → Bool
  | Ev.delKP _ => true
  | _ => false

/-- The event is a `describe_instances` call. -/
def isDescInstEv : Ev → Bool
  | Ev.descInst _ => true
  | _ => false

/-- The event belongs to the bootstrap phase (SSH connect or setup
closure). -/
def isBootEv : Ev → Bool
  | Ev.connectSSH _ => true
  | Ev.runSetup _ _ => true
  | _ => false

/-- The event is the user-callback invocation. -/
def isCallEv : Ev → Bool
  | Ev.callCallback => true
  | _ => false

/-- Events of the phases after the cancellation call. -/
def laterEv (e : Ev) : Bool :=
  isDescInstEv e || isBootEv e || isCallEv e || isTermEv e || isDelKPEv e

theorem preCancel_not_later {e : Ev} (h : preCancelEv e = true) :
    isCancelEv e = false ∧ laterEv e = false := by
  cases e <;> simp_all [preCancelEv, isCancelEv, laterEv, isDescInstEv, isBootEv,
    isCallEv, isTermEv, isDelKPEv]

/-! ### Per-phase trace shape lemmas -/

theorem provision_events (env : Env) (s k : String) :
    ∀ e ∈ (provisionPhase env s k).1, preCancelEv e = true := by
  intro e he
  unfold provisionPhase at he
  repeat' split at he
  all_goals simp_all [preCancelEv]
  all_goals (rcases he with rfl | rfl | rfl <;> rfl)

theorem submit_events (env : Env) (gid kname : String) :
    ∀ (ds : List (String × (MachineSetup × Nat))) (sf : AMap Nat) (ids : List String)
      (m : AMap String), ∀ e ∈ (submitPhase env gid kname ds sf ids m).1,
      preCancelEv e = true := by
  intro ds
  induction ds with
  | nil => intro sf ids m e he; simp [submitPhase] at he
  | cons hd tl ih =>
    intro sf ids m e he
    obtain ⟨name, setup, number⟩ := hd
    unfold submitPhase at he
    rcases h1 : env.reqSpot name with e1 | resp <;> rw [h1] at he
    · simp at he; subst he; rfl
    · rcases resp with _ | sirs
      · simp at he; subst he; rfl
      · simp at he
        rcases he with rfl | he
        · rfl
        · exact ih _ _ _ e he

theorem spotPoll_events (env : Env) (ids : List String) :
    ∀ (fuel k : Nat) (m : AMap String), ∀ e ∈ (spotPoll env ids fuel k m).1,
      preCancelEv e = true := by
  intro fuel
  induction fuel with
  | zero => intro k m e he; simp [spotPoll] at he
  | succ n ih =>
    intro k m e he
    unfold spotPoll at he
    rcases h1 : env.descSpot k with e1 | resp <;> simp [h1] at he
    · subst he; rfl
    · rcases h2 : anyOpen (resp.getD []) <;> simp [h2] at he
      · subst he; rfl
      · rcases he with rfl | rfl | he
        · rfl
        · rfl
        · exact ih _ _ e he

theorem readyLoop_events (env : Env) (m : AMap String) (ids : List String) :
    ∀ (fuel k : Nat), ∀ e ∈ (readyLoop env m ids fuel k).1, isDescInstEv e = true := by
  intro fuel
  induction fuel with
  | zero => intro k e he; simp [readyLoop] at he
  | succ n ih =>
    intro k e he
    unfold readyLoop at he
    rcases h1 : env.descInst k with e1 | resp <;> simp [h1] at he
    · subst he; rfl
    · rcases h2 : buildFleet m (flattenResv (resp.getD [])) true [] with ⟨ready, fleet⟩ | e2 | e2 | _ <;>
        simp [h2] at he
      · rcases h3 : ready <;> simp [h3] at he
        · rcases he with rfl | he
          · rfl
          · exact ih _ e he
        · subst he; rfl
      all_goals (subst he; rfl)

theorem bootMachines_events (env : Env) (name : String) (sid : Nat) :
    ∀ (ms : List Machine), ∀ e ∈ (bootMachines env name sid ms).1, isBootEv e = true := by
  intro ms
  induction ms with
  | nil => intro e he; simp [bootMachines] at he
  | cons mach rest ih =>
    intro e he
    unfold bootMachines at he
    rcases h1 : env.connect (mach.public_ip ++ ":22") with e1 | _ <;> simp [h1] at he
    · subst he; rfl
    · rcases h2 : env.setupRun sid mach.public_ip with e2 | _ <;> simp [h2] at he
      · rcases he with rfl | rfl <;> rfl
      · rcases h3 : (bootMachines env name sid rest).2 with ms2 | e3 | e3 | _ <;>
          simp [h3] at he <;>
          rcases he with rfl | rfl | he <;> first | rfl | exact ih e he

theorem bootstrapPhase_events (env : Env) (sf : AMap Nat) :
    ∀ (fleet : Fleet), ∀ e ∈ (bootstrapPhase env sf fleet).1, isBootEv e = true := by
  intro fleet
  induction fleet with
  | nil => intro e he; simp [bootstrapPhase] at he
  | cons hd rest ih =>
    intro e he
    obtain ⟨name, ms⟩ := hd
    unfold bootstrapPhase at he
    rcases h1 : AMap.lookupA sf name with _ | sid <;> simp [h1] at he
    · rcases h2 : (bootMachines env name sid ms).2 with ms2 | e2 | e2 | _ <;> simp [h2] at he
      · rcases h3 : (bootstrapPhase env sf rest).2 with rest2 | e3 | e3 | _ <;> simp [h3] at he <;>
          rcases he with he | he <;>
          first
          | exact bootMachines_events env name sid ms e he
          | exact ih e he
      all_goals exact bootMachines_events env name sid ms e he

theorem teardown_events (env : Env) (inst : List String) (kname : String) :
    ∀ e ∈ (teardownPhase env inst kname).1, isTermEv e = true ∨ isDelKPEv e = true := by
  intro e he
  unfold teardownPhase at he
  repeat' split at he
  all_goals simp_all
  all_goals (rcases he with rfl | rfl | rfl <;> simp [isTermEv, isDelKPEv])

theorem postFleet_events (env : Env) (kname : String) (aa : Bool) (sf : AMap Nat)
    (inst : List String) (fleet : Fleet) :
    ∀ e ∈ (postFleet env kname aa sf inst fleet).1,
      isBootEv e = true ∨ isCallEv e = true ∨ isTermEv e = true ∨ isDelKPEv e = true := by
  intro e he
  unfold postFleet at he
  rcases aa with _ | _
  · simp at he
    rcases teardown_events env inst kname e he with h | h
    · exact Or.inr (Or.inr (Or.inl h))
    · exact Or.inr (Or.inr (Or.inr h))
  · simp at he
    rcases h2 : (bootstrapPhase env sf fleet).2 with fleet2 | e2 | e2 | _ <;> simp [h2] at he
    · rcases h3 : env.callback fleet2 with e3 | _ <;> simp [h3] at he
      · rcases he with he | rfl
        · exact Or.inl (bootstrapPhase_events env sf fleet e he)
        · exact Or.inr (Or.inl rfl)
      · rcases he with he | rfl | he
        · exact Or.inl (bootstrapPhase_events env sf fleet e he)
        · exact Or.inr (Or.inl rfl)
        · rcases teardown_events env inst kname e he with h | h
          · exact Or.inr (Or.inr (Or.inl h))
          · exact Or.inr (Or.inr (Or.inr h))
    all_goals exact Or.inl (bootstrapPhase_events env sf fleet e he)

/-! ### Association-map lemmas -/

theorem lookupA_insertA_self {α : Type} (m : AMap α) (k : String) (v : α) :
    AMap.lookupA (AMap.insertA m k v) k = some v := by
  induction m with
  | nil => simp [AMap.insertA, AMap.lookupA]
  | cons hd tl ih =>
    obtain ⟨k1, v1⟩ := hd
    by_cases h : k1 = k
    · subst h; simp [AMap.insertA, AMap.lookupA]
    · simp [AMap.insertA, AMap.lookupA, h, ih]

theorem countKey_eq_zero {α : Type} (m : AMap α) (k : String)
    (h : k ∉ m.map Prod.fst) : AMap.countKey m k = 0 := by
  induction m with
  | nil => simp [AMap.countKey]
  | cons hd tl ih =>
    obtain ⟨k1, v1⟩ := hd
    rw [List.map_cons, List.mem_cons] at h
    push_neg at h
    simp [AMap.countKey, ih h.2, Ne.symm h.1]

theorem countKey_insertA {α : Type} (m : AMap α) (k : String) (v : α)
    (h : (m.map Prod.fst).Nodup) : AMap.countKey (AMap.insertA m k v) k = 1 := by
  induction m with
  | nil => simp [AMap.insertA, AMap.countKey]
  | cons hd tl ih =>
    obtain ⟨k1, v1⟩ := hd
    rw [List.map_cons, List.nodup_cons] at h
    by_cases hk : k1 = k
    · subst hk
      simp [AMap.insertA, AMap.countKey, countKey_eq_zero tl k1 h.1]
    · simp [AMap.insertA, AMap.countKey, hk, ih h.2]

theorem mem_keys_insertA {α : Type} (m : AMap α) (k a : String) (v : α)
    (h : a ∈ (AMap.insertA m k v).map Prod.fst) : a ∈ m.map Prod.fst ∨ a = k := by
  induction m with
  | nil =>
    rw [show AMap.insertA ([] : AMap α) k v = [(k, v)] from rfl] at h
    simp at h
    exact Or.inr h
  | cons hd tl ih =>
    obtain ⟨k1, v1⟩ := hd
    by_cases hk : k1 = k
    · subst hk
      rw [show AMap.insertA ((k1, v1) :: tl) k1 v = (k1, v) :: tl from by
            simp [AMap.insertA]] at h
      rw [List.map_cons, List.mem_cons] at h
      rcases h with rfl | h
      · exact Or.inl (by simp)
      · exact Or.inl (by simp [h])
    · rw [show AMap.insertA ((k1, v1) :: tl) k v = (k1, v1) :: AMap.insertA tl k v from by
            simp [AMap.insertA, hk]] at h
      rw [List.map_cons, List.mem_cons] at h
      rcases h with rfl | h
      · exact Or.inl (by simp)
      · rcases ih h with h2 | h2
        · exact Or.inl (by simp [h2])
        · exact Or.inr h2

theorem nodup_keys_insertA {α : Type} (m : AMap α) (k : String) (v : α)
    (h : (m.map Prod.fst).Nodup) : ((AMap.insertA m k v).map Prod.fst).Nodup := by
  induction m with
  | nil => simp [AMap.insertA]
  | cons hd tl ih =>
    obtain ⟨k1, v1⟩ := hd
    rw [List.map_cons, List.nodup_cons] at h
    by_cases hk : k1 = k
    · subst hk
      rw [show AMap.insertA ((k1, v1) :: tl) k1 v = (k1, v) :: tl from by
            simp [AMap.insertA]]
      rw [List.map_cons, List.nodup_cons]
      exact ⟨h.1, h.2⟩
    · rw [show AMap.insertA ((k1, v1) :: tl) k v = (k1, v1) :: AMap.insertA tl k v from by
            simp [AMap.insertA, hk]]
      rw [List.map_cons, List.nodup_cons]
      refine ⟨fun hmem => ?_, ih h.2⟩
      rcases mem_keys_insertA tl k k1 v hmem with h2 | h2
      · exact h.1 h2
      · exact hk h2

/-! ### Claim theorems: the builder interface -/

/-- C9: calling `add_set` with a group name that was already registered
silently replaces the earlier descriptor: after
`add_set(name, n2, s2)` following `add_set(name, n1, s1)` the registry
holds exactly one entry for `name`, carrying `(s2, n2)` (`add_set` is
total, so no error is reported).  The hypothesis is the `HashMap`
representation invariant of the association list: keys are distinct. -/
theorem c9_add_set_replaces (b : FlotillaBuilder) (name : String) (n1 n2 : Nat)
    (s1 s2 : MachineSetup) (h : (b.descriptors.map Prod.fst).Nodup) :
    AMap.lookupA ((b.add_set name n1 s1).add_set name n2 s2).descriptors name
        = some (s2, n2)
    ∧ AMap.countKey ((b.add_set name n1 s1).add_set name n2 s2).descriptors name = 1 :=
  ⟨lookupA_insertA_self _ _ _,
   countKey_insertA _ _ _ (nodup_keys_insertA _ _ _ h)⟩

/-- Witness for C9 at the empty default registry. -/
theorem c9_add_set_replaces_witness :
    AMap.lookupA
        ((FlotillaBuilder.defaultB.add_set "web" 1 ⟨"m5.large", "ami-a", 0⟩).add_set
          "web" 2 ⟨"c5.large", "ami-b", 1⟩).descriptors "web"
        = some (⟨"c5.large", "ami-b", 1⟩, 2)
    ∧ AMap.countKey
        ((FlotillaBuilder.defaultB.add_set "web" 1 ⟨"m5.large", "ami-a", 0⟩).add_set
          "web" 2 ⟨"c5.large", "ami-b", 1⟩).descriptors "web" = 1 :=
  c9_add_set_replaces FlotillaBuilder.defaultB "web" 1 2 ⟨"m5.large", "ami-a", 0⟩
    ⟨"c5.large", "ami-b", 1⟩ (by simp [FlotillaBuilder.defaultB])

/-- C8: `set_max_duration` is inert.  Two `run` invocations that differ
only in the stored `max_duration` — whether set through
`set_max_duration` or not set at all — issue the identical sequence of
compute-API requests (the trace) and produce the identical result;
`max_duration` is read nowhere in `run` (its only would-be use,
`block_duration_minutes`, is commented out in the source). -/
theorem c8_max_duration_inert :
    (∀ (env : Env) (s k : String) (f1 f2 : Nat) (b : FlotillaBuilder) (hours : Nat),
        runM env s k f1 f2 (b.set_max_duration hours) = runM env s k f1 f2 b)
    ∧ (∀ (env : Env) (s k : String) (f1 f2 : Nat) (d : AMap (MachineSetup × Nat))
        (m1 m2 : Int),
        runM env s k f1 f2 ⟨d, m1⟩ = runM env s k f1 f2 ⟨d, m2⟩) :=
  ⟨fun _ _ _ _ _ _ _ => rfl, fun _ _ _ _ _ _ _ _ => rfl⟩

/-! ### Claim theorems: the SSH connect loop -/

/-- Number of 1-second sleeps in a connect trace (the modelled elapsed
wall-clock seconds spent waiting between attempts). -/
def countSleeps (t : List ConnEv) : Nat :=
  t.countP (fun e => decide (e = ConnEv.sleepSec 1))

/-- C3 (divergence witness): against an address whose every TCP connect
attempt fails with connection-refused, the retry loop of
`Session::connect` never terminates — for every amount of fuel it is
still spinning, having slept 1 second per attempt.  In particular after
more than 120 attempts the modelled elapsed time exceeds the 120-second
deadline, yet no connect-timeout error is returned: the deadline check's
body is empty in the source (`src/ssh.rs` lines 30-33, the `panic!` is
commented out), contradicting both the claim and the code's own comment
that it should crash there. -/
theorem c3_connect_retries_forever :
    ∀ fuel k : Nat, (tcpLoop envRefused fuel k).2 = RunRes.spin
      ∧ countSleeps (tcpLoop envRefused fuel k).1 = fuel := by
  intro fuel
  induction fuel with
  | zero => intro k; simp [tcpLoop, countSleeps]
  | succ n ih =>
    intro k
    have htcp : ∀ j, envRefused.tcp j = some IoK.connRefused := fun _ => rfl
    constructor
    · simp [tcpLoop, htcp, (ih (k + 1)).1]
    · have h2 := (ih (k + 1)).2
      simp [countSleeps] at h2 ⊢
      simp [tcpLoop, htcp, List.countP_cons, h2]

/-! ### Spot-poll loop characterization -/

/-- Trace shape of the spot-polling loop: one describe per iteration, a
single 500 ms sleep between consecutive iterations, no trailing sleep. -/
def pollPattern (ids : List String) : Nat → List Ev
  | 0 => [Ev.descSpot ids]
  | n + 1 => Ev.descSpot ids :: Ev.sleepMs 500 :: pollPattern ids n

theorem spotPoll_ok (env : Env) (ids : List String) :
    ∀ (fuel k : Nat) (m : AMap String) (t : List Ev)
      (out : Bool × AMap String × List String),
      spotPoll env ids fuel k m = (t, RunRes.ok out) →
      (∃ n, t = pollPattern ids n)
      ∧ ∃ j resp, env.descSpot j = Except.ok resp ∧ anyOpen (resp.getD []) = false
          ∧ classifySpots m (resp.getD []) = RunRes.ok out := by
  intro fuel
  induction fuel with
  | zero => intro k m t out h; simp [spotPoll] at h
  | succ n ih =>
    intro k m t out h
    unfold spotPoll at h
    rcases h1 : env.descSpot k with e1 | resp <;> simp [h1] at h
    rcases h2 : anyOpen (resp.getD []) <;> simp [h2] at h
    · exact ⟨⟨0, h.1.symm⟩, ⟨k, resp, h1, h2, h.2⟩⟩
    · obtain ⟨ht, hr⟩ := h
      have hrec : spotPoll env ids n (k + 1) m
          = ((spotPoll env ids n (k + 1) m).1, RunRes.ok out) := by
        rw [← hr]
      obtain ⟨⟨n2, hp⟩, hrest⟩ := ih (k + 1) m _ out hrec
      refine ⟨⟨n2 + 1, ?_⟩, hrest⟩
      rw [← ht, hp]
      rfl

/-! ### Readiness loop characterization -/

theorem readyLoop_ok (env : Env) (m : AMap String) (ids : List String) :
    ∀ (fuel k : Nat) (t : List Ev) (fleet : Fleet),
      readyLoop env m ids fuel k = (t, RunRes.ok fleet) →
      ∃ j resp, env.descInst j = Except.ok resp
        ∧ buildFleet m (flattenResv (resp.getD [])) true [] = RunRes.ok (true, fleet) := by
  intro fuel
  induction fuel with
  | zero => intro k t fleet h; simp [readyLoop] at h
  | succ n ih =>
    intro k t fleet h
    unfold readyLoop at h
    rcases h1 : env.descInst k with e1 | resp <;> simp [h1] at h
    rcases h2 : buildFleet m (flattenResv (resp.getD [])) true [] with
      ⟨ready, fleet0⟩ | e2 | e2 | _ <;> simp [h2] at h
    rcases h3 : ready <;> simp [h3] at h
    · obtain ⟨_, hr⟩ := h
      have hrec : readyLoop env m ids n (k + 1)
          = ((readyLoop env m ids n (k + 1)).1, RunRes.ok fleet) := by
        rw [← hr]
      exact ih (k + 1) _ fleet hrec
    · subst h3
      exact ⟨k, resp, h1, by rw [h2, h.2]⟩

/-- An instance that contributes a `Machine` record: its state is present
with name `running` and it has a public address. -/
def readyInst (i : InstView) : Bool :=
  (match i.state with
   | some so => decide ((so.getD "") = "running")
   | none => false)
  && i.public_ip_address.isSome

theorem fleetSize_push (f : Fleet) (name : String) (mach : Machine) :
    fleetSize (Fleet.pushMachine f name mach) = fleetSize f + 1 := by
  induction f with
  | nil => simp [Fleet.pushMachine, fleetSize]
  | cons hd rest ih =>
    obtain ⟨k, ms⟩ := hd
    by_cases h : k = name
    · subst h
      simp [Fleet.pushMachine, fleetSize]
      omega
    · simp [Fleet.pushMachine, fleetSize, h] at ih ⊢
      omega

theorem buildFleet_false (m : AMap String) :
    ∀ (l : List InstView) (f : Fleet) (b : Bool) (f2 : Fleet),
      buildFleet m l false f = RunRes.ok (b, f2) → b = false := by
  intro l
  induction l with
  | nil => intro f b f2 h; simp [buildFleet] at h; exact h.1
  | cons inst rest ih =>
    intro f b f2 h
    unfold buildFleet at h
    rcases h1 : inst.state with _ | so <;> simp [h1] at h
    by_cases h2 : (so.getD "") = "running"
    · simp [h2] at h
      rcases h3 : inst.public_ip_address with _ | pip <;> simp [h3] at h
      · exact ih f b f2 h
      · rcases h4 : inst.instance_type with _ | ity <;> simp [h4] at h
        rcases h5 : inst.private_ip_address with _ | prip <;> simp [h5] at h
        rcases h6 : inst.instance_id with _ | iid <;> simp [h6] at h
        rcases h7 : AMap.lookupA m iid with _ | name <;> simp [h7] at h
        exact ih _ b f2 h
    · simp [h2] at h
      exact ih f b f2 h

theorem buildFleet_true_all (m : AMap String) :
    ∀ (l : List InstView) (r0 : Bool) (f : Fleet) (f2 : Fleet),
      buildFleet m l r0 f = RunRes.ok (true, f2) →
      (∀ i ∈ l, readyInst i = true) ∧ fleetSize f2 = fleetSize f + l.length := by
  intro l
  induction l with
  | nil =>
    intro r0 f f2 h
    simp [buildFleet] at h
    simp [← h.2]
  | cons inst rest ih =>
    intro r0 f f2 h
    unfold buildFleet at h
    rcases h1 : inst.state with _ | so <;> simp [h1] at h
    by_cases h2 : (so.getD "") = "running"
    · simp [h2] at h
      rcases h3 : inst.public_ip_address with _ | pip <;> simp [h3] at h
      · exact absurd (buildFleet_false m rest f _ _ h) (by simp)
      · rcases h4 : inst.instance_type with _ | ity <;> simp [h4] at h
        rcases h5 : inst.private_ip_address with _ | prip <;> simp [h5] at h
        rcases h6 : inst.instance_id with _ | iid <;> simp [h6] at h
        rcases h7 : AMap.lookupA m iid with _ | name <;> simp [h7] at h
        obtain ⟨hall, hsize⟩ := ih r0 _ f2 h
        refine ⟨?_, ?_⟩
        · intro i hi
          rcases hi with _ | hi
          · simp [readyInst, h1, h2, h3]
          · exact hall i (by assumption)
        · rw [hsize, fleetSize_push]
          simp
          omega
    · simp [h2] at h
      exact absurd (buildFleet_false m rest f _ _ h) (by simp)

/-- C6: when the readiness-polling loop returns a fleet, that fleet is
exactly the one built from the final `describe_instances` response alone
(the map is cleared and rebuilt from scratch every iteration, so nothing
from earlier iterations survives), it holds exactly one `Machine` per
described instance, and every described instance is `running` with a
present public address. -/
theorem c6_ready_fleet (env : Env) (m : AMap String) (ids : List String)
    (fuel k : Nat) (t : List Ev) (fleet : Fleet)
    (h : readyLoop env m ids fuel k = (t, RunRes.ok fleet)) :
    ∃ j resp, env.descInst j = Except.ok resp
      ∧ buildFleet m (flattenResv (resp.getD [])) true [] = RunRes.ok (true, fleet)
      ∧ fleetSize fleet = (flattenResv (resp.getD [])).length
      ∧ (∀ i ∈ flattenResv (resp.getD []), readyInst i = true) := by
  obtain ⟨j, resp, h1, h2⟩ := readyLoop_ok env m ids fuel k t fleet h
  obtain ⟨hall, hsize⟩ := buildFleet_true_all m _ _ _ _ h2
  refine ⟨j, resp, h1, h2, ?_, hall⟩
  simpa [fleetSize] using hsize

/-- Witness for C6: the happy-path readiness loop returns the one-machine
fleet for group `g` built from the final (only) describe response. -/
theorem c6_ready_fleet_witness :
    ∃ j resp, envOk.descInst j = Except.ok resp
      ∧ buildFleet [("i1", "g")] (flattenResv (resp.getD [])) true []
          = RunRes.ok (true, [("g", [⟨none, "t2.micro", "172.31.0.5", "1.2.3.4", "ec2-1-2-3-4"⟩])])
      ∧ fleetSize [("g", [⟨none, "t2.micro", "172.31.0.5", "1.2.3.4", "ec2-1-2-3-4"⟩])]
          = (flattenResv (resp.getD [])).length
      ∧ (∀ i ∈ flattenResv (resp.getD []), readyInst i = true) :=
  c6_ready_fleet envOk [("i1", "g")] ["i1"] 1 0 [Ev.descInst ["i1"]]
    [("g", [⟨none, "t2.micro", "172.31.0.5", "1.2.3.4", "ec2-1-2-3-4"⟩])] (by decide)

/-! ### Bootstrap phase lemmas -/

theorem bootMachines_ok (env : Env) (name : String) (sid : Nat) :
    ∀ (ms ms2 : List Machine),
      (bootMachines env name sid ms).2 = RunRes.ok ms2 →
      ms2 = ms.map (fun mach => { mach with ssh := some () })
      ∧ ∀ mach ∈ ms, env.connect (mach.public_ip ++ ":22") = Except.ok ()
          ∧ env.setupRun sid mach.public_ip = Except.ok () := by
  intro ms
  induction ms with
  | nil =>
    intro ms2 h
    simp [bootMachines] at h
    subst h
    simp
  | cons mach rest ih =>
    intro ms2 h
    unfold bootMachines at h
    rcases h1 : env.connect (mach.public_ip ++ ":22") with e1 | u1 <;> simp [h1] at h
    rcases h2 : env.setupRun sid mach.public_ip with e2 | u2 <;> simp [h2] at h
    rcases h3 : (bootMachines env name sid rest).2 with ms3 | e3 | e3 | _ <;> simp [h3] at h
    obtain ⟨hmap, hall⟩ := ih ms3 h3
    refine ⟨by simp [← h, hmap], ?_⟩
    intro m2 hm2
    rcases hm2 with _ | hm2
    · exact ⟨h1, h2⟩
    · exact hall m2 (by assumption)

theorem bootMachines_no_err (env : Env) (name : String) (sid : Nat) :
    ∀ (ms : List Machine) (e : String),
      (bootMachines env name sid ms).2 = RunRes.err e → False := by
  intro ms
  induction ms with
  | nil => intro e h; simp [bootMachines] at h
  | cons mach rest ih =>
    intro e h
    unfold bootMachines at h
    rcases h1 : env.connect (mach.public_ip ++ ":22") with e1 | u1 <;> simp [h1] at h
    rcases h2 : env.setupRun sid mach.public_ip with e2 | u2 <;> simp [h2] at h
    rcases h3 : (bootMachines env name sid rest).2 with ms3 | e3 | e3 | _ <;> simp [h3] at h
    exact ih e3 (h ▸ h3)

theorem bootstrapPhase_ok (env : Env) (sf : AMap Nat) :
    ∀ (fleet fleet2 : Fleet),
      (bootstrapPhase env sf fleet).2 = RunRes.ok fleet2 →
      (∀ p ∈ fleet2, ∀ mach ∈ p.2, mach.ssh = some ())
      ∧ (∀ p ∈ fleet, ∃ sid, AMap.lookupA sf p.1 = some sid
          ∧ ∀ mach ∈ p.2, env.connect (mach.public_ip ++ ":22") = Except.ok ()
              ∧ env.setupRun sid mach.public_ip = Except.ok ()) := by
  intro fleet
  induction fleet with
  | nil =>
    intro fleet2 h
    simp [bootstrapPhase] at h
    subst h
    simp
  | cons hd rest ih =>
    intro fleet2 h
    obtain ⟨name, ms⟩ := hd
    unfold bootstrapPhase at h
    rcases h1 : AMap.lookupA sf name with _ | sid <;> simp [h1] at h
    rcases h2 : (bootMachines env name sid ms).2 with ms2 | e2 | e2 | _ <;> simp [h2] at h
    rcases h3 : (bootstrapPhase env sf rest).2 with rest2 | e3 | e3 | _ <;> simp [h3] at h
    obtain ⟨hmap, hprops⟩ := bootMachines_ok env name sid ms ms2 h2
    obtain ⟨ih1, ih2⟩ := ih rest2 h3
    subst hmap
    constructor
    · intro p hp mach hm
      rw [← h] at hp
      rcases hp with _ | hp
      · rcases List.mem_map.1 hm with ⟨a, _, rfl⟩
        rfl
      · exact ih1 p (by assumption) mach hm
    · intro p hp
      rcases hp with _ | hp
      · exact ⟨sid, h1, hprops⟩
      · exact ih2 p (by assumption)

theorem bootstrapPhase_no_err (env : Env) (sf : AMap Nat) :
    ∀ (fleet : Fleet) (e : String),
      (bootstrapPhase env sf fleet).2 = RunRes.err e → False := by
  intro fleet
  induction fleet with
  | nil => intro e h; simp [bootstrapPhase] at h
  | cons hd rest ih =>
    intro e h
    obtain ⟨name, ms⟩ := hd
    unfold bootstrapPhase at h
    rcases h1 : AMap.lookupA sf name with _ | sid <;> simp [h1] at h
    rcases h2 : (bootMachines env name sid ms).2 with ms2 | e2 | e2 | _ <;> simp [h2] at h
    · rcases h3 : (bootstrapPhase env sf rest).2 with rest2 | e3 | e3 | _ <;> simp [h3] at h
      exact ih e3 (h ▸ h3)
    · exact bootMachines_no_err env name sid ms e2 (h ▸ h2)

/-! ### Teardown and post-fleet lemmas -/

theorem teardown_ok_shape (env : Env) (inst : List String) (kname : String)
    (h : (teardownPhase env inst kname).2 = RunRes.ok ()) :
    (teardownPhase env inst kname).1
      = [Ev.termInst inst, Ev.termInst inst, Ev.delKP kname] := by
  unfold teardownPhase at h ⊢
  rcases h0 : env.terminate 0 with e0 | u0 <;> simp [h0] at h ⊢
  rcases h1 : env.terminate 1 with e1 | u1 <;> simp [h1] at h ⊢
  rcases h2 : env.deleteKey with e2 | u2 <;> simp [h2] at h ⊢

theorem teardown_no_panic (env : Env) (inst : List String) (kname : String)
    (msg : String) (h : (teardownPhase env inst kname).2 = RunRes.panic msg) : False := by
  unfold teardownPhase at h
  rcases h0 : env.terminate 0 with e0 | u0 <;> simp [h0] at h
  rcases h1 : env.terminate 1 with e1 | u1 <;> simp [h1] at h
  rcases h2 : env.deleteKey with e2 | u2 <;> simp [h2] at h

theorem bootEv_not_other {e : Ev} (h : isBootEv e = true) :
    isTermEv e = false ∧ isDelKPEv e = false ∧ isCancelEv e = false ∧ isCallEv e = false := by
  cases e <;> simp_all [isBootEv, isTermEv, isDelKPEv, isCancelEv, isCallEv]

theorem descInstEv_not_other {e : Ev} (h : isDescInstEv e = true) :
    isTermEv e = false ∧ isDelKPEv e = false ∧ isCancelEv e = false ∧ isCallEv e = false := by
  cases e <;> simp_all [isDescInstEv, isTermEv, isDelKPEv, isCancelEv, isCallEv]

theorem teardownEv_not_other {e : Ev} (h : isTermEv e = true ∨ isDelKPEv e = true) :
    isCancelEv e = false ∧ isCallEv e = false := by
  cases e <;> simp_all [isTermEv, isDelKPEv, isCancelEv, isCallEv]

theorem postFleet_ok_shape (env : Env) (kname : String) (aa : Bool) (sf : AMap Nat)
    (inst : List String) (fleet : Fleet)
    (h : (postFleet env kname aa sf inst fleet).2 = RunRes.ok ()) :
    ∃ t0, (postFleet env kname aa sf inst fleet).1
        = t0 ++ [Ev.termInst inst, Ev.termInst inst, Ev.delKP kname]
      ∧ ∀ e ∈ t0, isTermEv e = false ∧ isDelKPEv e = false := by
  unfold postFleet at h ⊢
  rcases aa with _ | _
  · simp only [Bool.false_eq_true, if_false] at h ⊢
    exact ⟨[], by simp [teardown_ok_shape env inst kname h], by simp⟩
  · simp only [if_true] at h ⊢
    rcases h2 : (bootstrapPhase env sf fleet).2 with fl2 | e2 | e2 | _ <;> simp [h2] at h ⊢
    rcases h3 : env.callback fl2 with e3 | u3 <;> simp [h3] at h ⊢
    refine ⟨(bootstrapPhase env sf fleet).1 ++ [Ev.callCallback], ?_, ?_⟩
    · rw [teardown_ok_shape env inst kname h]
      simp
    · intro e he
      rcases List.mem_append.1 he with he | he
      · have hb := bootstrapPhase_events env sf fleet e he
        exact ⟨(bootEv_not_other hb).1, (bootEv_not_other hb).2.1⟩
      · simp at he
        subst he
        exact ⟨rfl, rfl⟩

/-- The failure of an inner computation as seen at the run's result type
(`?`-propagation across the `seqT` chain; never applied to `ok`). -/
def RunRes.castF {α β : Type} : RunRes α → RunRes β
  | RunRes.ok _ => RunRes.spin
  | RunRes.err e => RunRes.err e
  | RunRes.panic e => RunRes.panic e
  | RunRes.spin => RunRes.spin

/-! ### Run decomposition -/

theorem runM_split (env : Env) (s kk : String) (f1 f2 : Nat) (b : FlotillaBuilder) :
    ((∀ e ∈ (runM env s kk f1 f2 b).1, preCancelEv e = true)
      ∧ (runM env s kk f1 f2 b).2 ≠ RunRes.ok ())
    ∨ ∃ gk sim aim t1 t2 t3,
        provisionPhase env s kk = (t1, RunRes.ok gk)
        ∧ submitPhase env gk.1 gk.2 b.descriptors [] [] [] = (t2, RunRes.ok sim)
        ∧ spotPoll env sim.2.1 f1 0 sim.2.2 = (t3, RunRes.ok aim)
        ∧ ((∃ ce, env.cancelSpot = Except.error ce
              ∧ (runM env s kk f1 f2 b).1 = t1 ++ t2 ++ t3 ++ [Ev.cancelSpot sim.2.1]
              ∧ (runM env s kk f1 f2 b).2
                  = RunRes.err ("failed to cancel spot instances: " ++ ce))
           ∨ (env.cancelSpot = Except.ok ()
              ∧ ∃ t4 r4, readyLoop env aim.2.1 aim.2.2 f2 0 = (t4, r4)
                ∧ (((∀ fl, r4 ≠ RunRes.ok fl)
                      ∧ (runM env s kk f1 f2 b).1
                          = t1 ++ t2 ++ t3 ++ [Ev.cancelSpot sim.2.1] ++ t4
                      ∧ (runM env s kk f1 f2 b).2 = RunRes.castF r4)
                   ∨ ∃ fl, r4 = RunRes.ok fl
                       ∧ (runM env s kk f1 f2 b).1
                           = t1 ++ t2 ++ t3 ++ [Ev.cancelSpot sim.2.1] ++ t4
                             ++ (postFleet env gk.2 aim.1 sim.1 aim.2.2 fl).1
                       ∧ (runM env s kk f1 f2 b).2
                           = (postFleet env gk.2 aim.1 sim.1 aim.2.2 fl).2))) := by
  rcases hp : provisionPhase env s kk with ⟨t1, r1⟩
  cases r1 with
  | ok gk =>
    rcases hs : submitPhase env gk.1 gk.2 b.descriptors [] [] [] with ⟨t2, r2⟩
    cases r2 with
    | ok sim =>
      rcases hq : spotPoll env sim.2.1 f1 0 sim.2.2 with ⟨t3, r3⟩
      cases r3 with
      | ok aim =>
        rcases hc : env.cancelSpot with ce | cu
        · refine Or.inr ⟨gk, sim, aim, t1, t2, t3, rfl, hs, hq, Or.inl ⟨ce, rfl, ?_, ?_⟩⟩ <;>
            simp [runM, seqT, hp, hs, hq, cancelStep, hc]
        · rcases hr : readyLoop env aim.2.1 aim.2.2 f2 0 with ⟨t4, r4⟩
          cases r4 with
          | ok fl =>
            refine Or.inr ⟨gk, sim, aim, t1, t2, t3, rfl, hs, hq,
              Or.inr ⟨rfl, t4, RunRes.ok fl, hr, Or.inr ⟨fl, rfl, ?_, ?_⟩⟩⟩ <;>
              simp [runM, seqT, hp, hs, hq, cancelStep, hc, hr]
          | err e4 =>
            refine Or.inr ⟨gk, sim, aim, t1, t2, t3, rfl, hs, hq,
              Or.inr ⟨rfl, t4, RunRes.err e4, hr, Or.inl ⟨by simp, ?_, ?_⟩⟩⟩ <;>
              simp [runM, seqT, hp, hs, hq, cancelStep, hc, hr, RunRes.castF]
          | panic e4 =>
            refine Or.inr ⟨gk, sim, aim, t1, t2, t3, rfl, hs, hq,
              Or.inr ⟨rfl, t4, RunRes.panic e4, hr, Or.inl ⟨by simp, ?_, ?_⟩⟩⟩ <;>
              simp [runM, seqT, hp, hs, hq, cancelStep, hc, hr, RunRes.castF]
          | spin =>
            refine Or.inr ⟨gk, sim, aim, t1, t2, t3, rfl, hs, hq,
              Or.inr ⟨rfl, t4, RunRes.spin, hr, Or.inl ⟨by simp, ?_, ?_⟩⟩⟩ <;>
              simp [runM, seqT, hp, hs, hq, cancelStep, hc, hr, RunRes.castF]
      | err e3 =>
        refine Or.inl ⟨?_, ?_⟩ <;> simp [runM, seqT, hp, hs, hq]
        intro e he
        try simp only [List.mem_append] at he
        rcases he with he | he | he
        · exact provision_events env s kk e (by simp only [hp]; exact he)
        · exact submit_events env gk.1 gk.2 b.descriptors [] [] [] e (by simp only [hs]; exact he)
        · exact spotPoll_events env sim.2.1 f1 0 sim.2.2 e (by simp only [hq]; exact he)
      | panic e3 =>
        refine Or.inl ⟨?_, ?_⟩ <;> simp [runM, seqT, hp, hs, hq]
        intro e he
        try simp only [List.mem_append] at he
        rcases he with he | he | he
        · exact provision_events env s kk e (by simp only [hp]; exact he)
        · exact submit_events env gk.1 gk.2 b.descriptors [] [] [] e (by simp only [hs]; exact he)
        · exact spotPoll_events env sim.2.1 f1 0 sim.2.2 e (by simp only [hq]; exact he)
      | spin =>
        refine Or.inl ⟨?_, ?_⟩ <;> simp [runM, seqT, hp, hs, hq]
        intro e he
        try simp only [List.mem_append] at he
        rcases he with he | he | he
        · exact provision_events env s kk e (by simp only [hp]; exact he)
        · exact submit_events env gk.1 gk.2 b.descriptors [] [] [] e (by simp only [hs]; exact he)
        · exact spotPoll_events env sim.2.1 f1 0 sim.2.2 e (by simp only [hq]; exact he)
    | err e2 =>
      refine Or.inl ⟨?_, ?_⟩ <;> simp [runM, seqT, hp, hs]
      intro e he
      try simp only [List.mem_append] at he
      rcases he with he | he
      · exact provision_events env s kk e (by simp only [hp]; exact he)
      · exact submit_events env gk.1 gk.2 b.descriptors [] [] [] e (by simp only [hs]; exact he)
    | panic e2 =>
      refine Or.inl ⟨?_, ?_⟩ <;> simp [runM, seqT, hp, hs]
      intro e he
      try simp only [List.mem_append] at he
      rcases he with he | he
      · exact provision_events env s kk e (by simp only [hp]; exact he)
      · exact submit_events env gk.1 gk.2 b.descriptors [] [] [] e (by simp only [hs]; exact he)
    | spin =>
      refine Or.inl ⟨?_, ?_⟩ <;> simp [runM, seqT, hp, hs]
      intro e he
      try simp only [List.mem_append] at he
      rcases he with he | he
      · exact provision_events env s kk e (by simp only [hp]; exact he)
      · exact submit_events env gk.1 gk.2 b.descriptors [] [] [] e (by simp only [hs]; exact he)
  | err e1 =>
    refine Or.inl ⟨?_, ?_⟩ <;> simp [runM, seqT, hp]
    intro e he
    exact provision_events env s kk e (by simp only [hp]; exact he)
  | panic e1 =>
    refine Or.inl ⟨?_, ?_⟩ <;> simp [runM, seqT, hp]
    intro e he
    exact provision_events env s kk e (by simp only [hp]; exact he)
  | spin =>
    refine Or.inl ⟨?_, ?_⟩ <;> simp [runM, seqT, hp]
    intro e he
    exact provision_events env s kk e (by simp only [hp]; exact he)

theorem preCancel_not_teardown {e : Ev} (h : preCancelEv e = true) :
    isTermEv e = false ∧ isDelKPEv e = false := by
  cases e <;> simp_all [preCancelEv, isTermEv, isDelKPEv]

theorem postFleet_no_cancel (env : Env) (kname : String) (aa : Bool) (sf : AMap Nat)
    (inst : List String) (fleet : Fleet) :
    ∀ e ∈ (postFleet env kname aa sf inst fleet).1, isCancelEv e = false := by
  intro e he
  rcases postFleet_events env kname aa sf inst fleet e he with h | h | h | h
  · exact (bootEv_not_other h).2.2.1
  · cases e <;> simp_all [isCallEv, isCancelEv]
  · exact (teardownEv_not_other (Or.inl h)).1
  · exact (teardownEv_not_other (Or.inr h)).1

theorem postFleet_no_call_of_panic (env : Env) (kname : String) (aa : Bool)
    (sf : AMap Nat) (inst : List String) (fleet : Fleet) (msg : String)
    (h : (postFleet env kname aa sf inst fleet).2 = RunRes.panic msg) :
    Ev.callCallback ∉ (postFleet env kname aa sf inst fleet).1 := by
  unfold postFleet at h ⊢
  rcases aa with _ | _
  · simp only [Bool.false_eq_true, if_false] at h ⊢
    exact (teardown_no_panic env inst kname msg h).elim
  · simp only [if_true] at h ⊢
    rcases h2 : (bootstrapPhase env sf fleet).2 with fl2 | e2 | e2 | _ <;> simp [h2] at h ⊢
    · rcases h3 : env.callback fl2 with e3 | u3 <;> simp [h3] at h ⊢
      exact (teardown_no_panic env inst kname msg h).elim
    · intro hc
      have hb := bootstrapPhase_events env sf fleet _ hc
      simp [isBootEv] at hb

theorem teardown_first_term (env : Env) (inst : List String) (kname : String) :
    Ev.termInst inst ∈ (teardownPhase env inst kname).1 := by
  unfold teardownPhase
  rcases env.terminate 0 with e0 | u0 <;> simp
  rcases env.terminate 1 with e1 | u1 <;> simp
  rcases env.deleteKey with e2 | u2 <;> simp

/-! ### Claim theorems: teardown conditionality -/

/-- C1 (amended): when spot-request polling finishes with
`all_active = false`, bootstrap and the user callback are skipped — the
post-fleet phase is literally the teardown phase, whose trace contains no
SSH-connect, setup or callback event — but the instance-terminate and
keypair-delete teardown is NOT skipped: the first `terminate_instances`
call is always issued on that path, and when the phase succeeds the
`delete_key_pair` call is issued too.  (The claim's assertion that no
terminate or delete call is made on this path is refuted by the
counterexample run recorded separately.) -/
theorem c1_inactive_still_tears_down (env : Env) (kname : String) (sf : AMap Nat)
    (inst : List String) (fleet : Fleet) :
    postFleet env kname false sf inst fleet = teardownPhase env inst kname
    ∧ (∀ e ∈ (postFleet env kname false sf inst fleet).1,
        isBootEv e = false ∧ isCallEv e = false)
    ∧ Ev.termInst inst ∈ (postFleet env kname false sf inst fleet).1
    ∧ ((postFleet env kname false sf inst fleet).2 = RunRes.ok () →
        Ev.delKP kname ∈ (postFleet env kname false sf inst fleet).1) := by
  have hpf : postFleet env kname false sf inst fleet = teardownPhase env inst kname := by
    unfold postFleet
    simp
  refine ⟨hpf, ?_, ?_, ?_⟩
  · intro e he
    rw [hpf] at he
    have h := teardown_events env inst kname e he
    rcases h with h | h <;> cases e <;>
      simp_all [isTermEv, isDelKPEv, isBootEv, isCallEv]
  · rw [hpf]
    exact teardown_first_term env inst kname
  · intro hok
    rw [hpf] at hok ⊢
    rw [teardown_ok_shape env inst kname hok]
    simp

/-- C2 (amended): if the user callback is invoked and returns an error,
`run` resolves with that error immediately — the post-fleet phase returns
`flotilla main routine failed: e`, its trace ends at the callback event
and contains no `terminate_instances` or `delete_key_pair` call, so
teardown is skipped; teardown is attempted (the first terminate call is
issued) exactly when the callback returns success.  (The claim's
assertion that teardown is still attempted after a callback error is
refuted by the counterexample run recorded separately.) -/
theorem c2_callback_error_skips_teardown (env : Env) (kname : String) (sf : AMap Nat)
    (inst : List String) (fleet : Fleet) (tb : List Ev) (fleet2 : Fleet)
    (hb : bootstrapPhase env sf fleet = (tb, RunRes.ok fleet2)) :
    (∀ e, env.callback fleet2 = Except.error e →
        postFleet env kname true sf inst fleet
          = (tb ++ [Ev.callCallback], RunRes.err ("flotilla main routine failed: " ++ e))
        ∧ (∀ l, Ev.termInst l ∉ tb ++ [Ev.callCallback])
        ∧ (∀ n, Ev.delKP n ∉ tb ++ [Ev.callCallback]))
    ∧ (env.callback fleet2 = Except.ok () →
        Ev.termInst inst ∈ (postFleet env kname true sf inst fleet).1) := by
  have hb1 : (bootstrapPhase env sf fleet).1 = tb := by rw [hb]
  have hb2 : (bootstrapPhase env sf fleet).2 = RunRes.ok fleet2 := by rw [hb]
  have htb : ∀ e ∈ tb ++ [Ev.callCallback], isTermEv e = false ∧ isDelKPEv e = false := by
    intro e he
    rcases List.mem_append.1 he with he | he
    · have hbe := bootstrapPhase_events env sf fleet e (hb1 ▸ he)
      exact ⟨(bootEv_not_other hbe).1, (bootEv_not_other hbe).2.1⟩
    · simp at he
      subst he
      exact ⟨rfl, rfl⟩
  constructor
  · intro e hcb
    refine ⟨?_, ?_, ?_⟩
    · unfold postFleet
      simp [hb2, hcb, hb1]
    · intro l hl
      have h := (htb _ hl).1
      simp [isTermEv] at h
    · intro n hn
      have h := (htb _ hn).2
      simp [isDelKPEv] at h
  · intro hcb
    have hpf1 : (postFleet env kname true sf inst fleet).1
        = tb ++ [Ev.callCallback] ++ (teardownPhase env inst kname).1 := by
      unfold postFleet
      simp [hb2, hcb, hb1]
    rw [hpf1]
    exact List.mem_append.2 (Or.inr (teardown_first_term env inst kname))

/-- C10: on the teardown path, `terminate_instances` is invoked exactly
twice, both calls carrying the identical full instance-id list collected
for the run, before the single `delete_key_pair` call; an error from
either terminate call or from `delete_key_pair` aborts `run` with that
error, a terminate failure preventing the keypair deletion from being
attempted.  Conjunct 2 lifts this to a whole successful run: its trace
ends with exactly the two terminate calls and the delete-key-pair call,
no such call occurring earlier. -/
theorem c10_teardown_twice_then_delete :
    (∀ (env : Env) (inst : List String) (kname : String),
      (∀ l, Ev.termInst l ∈ (teardownPhase env inst kname).1 → l = inst)
      ∧ ((teardownPhase env inst kname).2 = RunRes.ok () →
          (teardownPhase env inst kname).1
            = [Ev.termInst inst, Ev.termInst inst, Ev.delKP kname])
      ∧ (∀ e, env.terminate 0 = Except.error e →
          (teardownPhase env inst kname).1 = [Ev.termInst inst]
          ∧ (teardownPhase env inst kname).2
              = RunRes.err ("Failed to terminate flotilla instances: " ++ e))
      ∧ (∀ e, env.terminate 0 = Except.ok () → env.terminate 1 = Except.error e →
          (teardownPhase env inst kname).1 = [Ev.termInst inst, Ev.termInst inst]
          ∧ (teardownPhase env inst kname).2
              = RunRes.err ("Failed to terminate flotilla instances: " ++ e))
      ∧ (∀ e, env.terminate 0 = Except.ok () → env.terminate 1 = Except.ok () →
          env.deleteKey = Except.error e →
          (teardownPhase env inst kname).2
              = RunRes.err ("Failed to delete key pair: " ++ e)))
    ∧ (∀ (env : Env) (s kk : String) (f1 f2 : Nat) (b : FlotillaBuilder) (t : List Ev),
        runM env s kk f1 f2 b = (t, RunRes.ok ()) →
        ∃ t0 inst kname, t = t0 ++ [Ev.termInst inst, Ev.termInst inst, Ev.delKP kname]
          ∧ ∀ e ∈ t0, isTermEv e = false ∧ isDelKPEv e = false) := by
  constructor
  · intro env inst kname
    refine ⟨?_, teardown_ok_shape env inst kname, ?_, ?_, ?_⟩
    · intro l hl
      unfold teardownPhase at hl
      rcases h0 : env.terminate 0 with e0 | u0 <;> simp [h0] at hl
      · exact hl
      · rcases h1 : env.terminate 1 with e1 | u1 <;> simp [h1] at hl
        · exact hl
        · rcases h2 : env.deleteKey with e2 | u2 <;> simp [h2] at hl <;> exact hl
    · intro e he0
      refine ⟨?_, ?_⟩ <;> (unfold teardownPhase; simp [he0])
    · intro e h0 h1
      refine ⟨?_, ?_⟩ <;> (unfold teardownPhase; simp [h0, h1])
    · intro e h0 h1 h2
      unfold teardownPhase
      simp [h0, h1, h2]
  · intro env s kk f1 f2 b t h
    rcases runM_split env s kk f1 f2 b with ⟨_, hne⟩ |
      ⟨gk, sim, aim, t1, t2, t3, hp, hs, hq, hrest⟩
    · rw [h] at hne
      exact absurd rfl hne
    · rcases hrest with ⟨ce, hc, htr, hres⟩ | ⟨hc, t4, r4, hr, hrest2⟩
      · rw [h] at hres
        simp at hres
      · rcases hrest2 with ⟨hne4, htr, hres⟩ | ⟨fl, hfl, htr, hres⟩
        · rw [h] at hres
          cases r4 <;> simp [RunRes.castF] at hres
        · rw [h] at htr hres
          simp only [Prod.fst, Prod.snd] at htr hres
          obtain ⟨t0, hshape, ht0⟩ :=
            postFleet_ok_shape env gk.2 aim.1 sim.1 aim.2.2 fl hres.symm
          refine ⟨t1 ++ t2 ++ t3 ++ [Ev.cancelSpot sim.2.1] ++ t4 ++ t0,
            aim.2.2, gk.2, ?_, ?_⟩
          · rw [htr, hshape]
            simp [List.append_assoc]
          · intro e he
            simp only [List.mem_append, List.mem_singleton] at he
            rcases he with ((((he | he) | he) | he) | he) | he
            · exact preCancel_not_teardown (provision_events env s kk e
                (by simp only [hp]; exact he))
            · exact preCancel_not_teardown (submit_events env gk.1 gk.2 b.descriptors
                [] [] [] e (by simp only [hs]; exact he))
            · exact preCancel_not_teardown (spotPoll_events env sim.2.1 f1 0 sim.2.2 e
                (by simp only [hq]; exact he))
            · subst he
              exact ⟨rfl, rfl⟩
            · have hd := readyLoop_events env aim.2.1 aim.2.2 f2 0 e
                (by simp only [hr]; exact he)
              exact ⟨(descInstEv_not_other hd).1, (descInstEv_not_other hd).2.1⟩
            · exact ht0 e he

/-! ### Claim theorems: bootstrap failure behaviour -/

/-- C4 (amended): (1) on the successful bootstrap path a `Session` is
attached to a `Machine` if and only if that machine's group bootstrap
routine returned success — the returned fleet carries `ssh = some` on
every machine and every machine's connect and setup calls succeeded;
(2) `bootstrapPhase` never returns an `anyhow` error: a connect or
bootstrap failure is `unwrap`ped, i.e. a panic, not an error `run` could
return; and (3) a panicking run aborts before the user callback — its
trace contains no callback invocation.  (The claim's assertion that the
failure is returned as the run's result is refuted by the counterexample
run recorded separately.) -/
theorem c4_session_iff_success_and_panic_abort :
    (∀ (env : Env) (sf : AMap Nat) (fleet fleet2 : Fleet),
        (bootstrapPhase env sf fleet).2 = RunRes.ok fleet2 →
        (∀ p ∈ fleet2, ∀ mach ∈ p.2, mach.ssh = some ())
        ∧ (∀ p ∈ fleet, ∃ sid, AMap.lookupA sf p.1 = some sid
            ∧ ∀ mach ∈ p.2, env.connect (mach.public_ip ++ ":22") = Except.ok ()
                ∧ env.setupRun sid mach.public_ip = Except.ok ()))
    ∧ (∀ (env : Env) (sf : AMap Nat) (fleet : Fleet) (e : String),
        (bootstrapPhase env sf fleet).2 = RunRes.err e → False)
    ∧ (∀ (env : Env) (s kk : String) (f1 f2 : Nat) (b : FlotillaBuilder) (t : List Ev)
        (msg : String), runM env s kk f1 f2 b = (t, RunRes.panic msg) →
        Ev.callCallback ∉ t) := by
  refine ⟨fun env sf fleet fleet2 => bootstrapPhase_ok env sf fleet fleet2,
    fun env sf fleet e => bootstrapPhase_no_err env sf fleet e, ?_⟩
  intro env s kk f1 f2 b t msg h
  rcases runM_split env s kk f1 f2 b with ⟨hpre, _⟩ |
    ⟨gk, sim, aim, t1, t2, t3, hp, hs, hq, hrest⟩
  · intro hc
    have hh := hpre Ev.callCallback (by rw [h]; exact hc)
    simp [preCancelEv] at hh
  · rcases hrest with ⟨ce, hc, htr, hres⟩ | ⟨hc, t4, r4, hr, hrest2⟩
    · rw [h] at hres
      simp at hres
    · rcases hrest2 with ⟨hne4, htr, hres⟩ | ⟨fl, hfl, htr, hres⟩
      · rw [h] at htr hres
        simp only [Prod.fst, Prod.snd] at htr hres
        rw [htr]
        intro hc
        simp only [List.mem_append, List.mem_singleton] at hc
        rcases hc with (((hc | hc) | hc) | hc) | hc
        · have hh := provision_events env s kk _ (by simp only [hp]; exact hc)
          simp [preCancelEv] at hh
        · have hh := submit_events env gk.1 gk.2 b.descriptors [] [] [] _
            (by simp only [hs]; exact hc)
          simp [preCancelEv] at hh
        · have hh := spotPoll_events env sim.2.1 f1 0 sim.2.2 _
            (by simp only [hq]; exact hc)
          simp [preCancelEv] at hh
        · exact absurd hc (by simp)
        · have hh := readyLoop_events env aim.2.1 aim.2.2 f2 0 _
            (by simp only [hr]; exact hc)
          simp [isDescInstEv] at hh
      · rw [h] at htr hres
        simp only [Prod.fst, Prod.snd] at htr hres
        rw [htr]
        intro hc
        simp only [List.mem_append, List.mem_singleton] at hc
        rcases hc with ((((hc | hc) | hc) | hc) | hc) | hc
        · have hh := provision_events env s kk _ (by simp only [hp]; exact hc)
          simp [preCancelEv] at hh
        · have hh := submit_events env gk.1 gk.2 b.descriptors [] [] [] _
            (by simp only [hs]; exact hc)
          simp [preCancelEv] at hh
        · have hh := spotPoll_events env sim.2.1 f1 0 sim.2.2 _
            (by simp only [hq]; exact hc)
          simp [preCancelEv] at hh
        · exact absurd hc (by simp)
        · have hh := readyLoop_events env aim.2.1 aim.2.2 f2 0 _
            (by simp only [hr]; exact hc)
          simp [isDescInstEv] at hh
        · exact postFleet_no_call_of_panic env gk.2 aim.1 sim.1 aim.2.2 fl msg
            hres.symm hc

/-! ### Claim theorems: spot polling and cancellation -/

/-- C5: conjunct 1 — the spot-request polling loop never proceeds to
classification while any described request's state is `open`: on a normal
exit the final describe response has no `open` request and is the one
classified, and the loop's trace is one describe per iteration with a
single 500 ms sleep between consecutive iterations.  Conjunct 2 — at run
level, any cancellation call that appears in the trace is unique, carries
exactly the originally-submitted request-id list produced by the
submission phase, follows a successful poll, and precedes every
later-phase call (describe-instances, SSH, callback, terminate,
delete-key-pair). -/
theorem c5_poll_exit_and_single_cancel :
    (∀ (env : Env) (ids : List String) (fuel k : Nat) (m : AMap String) (t : List Ev)
        (out : Bool × AMap String × List String),
        spotPoll env ids fuel k m = (t, RunRes.ok out) →
        (∃ n, t = pollPattern ids n)
        ∧ ∃ j resp, env.descSpot j = Except.ok resp ∧ anyOpen (resp.getD []) = false
            ∧ classifySpots m (resp.getD []) = RunRes.ok out)
    ∧ (∀ (env : Env) (s kk : String) (f1 f2 : Nat) (b : FlotillaBuilder) (t : List Ev)
        (r : RunRes Unit) (l : List String),
        runM env s kk f1 f2 b = (t, r) → Ev.cancelSpot l ∈ t →
        ∃ gk sim aim t1 t2 t3 c,
          provisionPhase env s kk = (t1, RunRes.ok gk)
          ∧ submitPhase env gk.1 gk.2 b.descriptors [] [] [] = (t2, RunRes.ok sim)
          ∧ l = sim.2.1
          ∧ spotPoll env sim.2.1 f1 0 sim.2.2 = (t3, RunRes.ok aim)
          ∧ t = (t1 ++ t2 ++ t3) ++ Ev.cancelSpot l :: c
          ∧ (∀ e ∈ t1 ++ t2 ++ t3, isCancelEv e = false ∧ laterEv e = false)
          ∧ (∀ e ∈ c, isCancelEv e = false))
    ∧ (∀ (env : Env) (s kk : String) (f1 f2 : Nat) (b : FlotillaBuilder) (t : List Ev)
        (r : RunRes Unit) (gk : String × String) (sim : AMap Nat × List String × AMap String)
        (aim : Bool × AMap String × List String) (t1 t2 t3 : List Ev),
        runM env s kk f1 f2 b = (t, r) →
        provisionPhase env s kk = (t1, RunRes.ok gk) →
        submitPhase env gk.1 gk.2 b.descriptors [] [] [] = (t2, RunRes.ok sim) →
        spotPoll env sim.2.1 f1 0 sim.2.2 = (t3, RunRes.ok aim) →
        Ev.cancelSpot sim.2.1 ∈ t) := by
  refine ⟨fun env ids fuel k m t out => spotPoll_ok env ids fuel k m t out, ?_, ?_⟩
  swap
  · intro env s kk f1 f2 b t r gk sim aim t1 t2 t3 h hp hs hq
    have ht : (runM env s kk f1 f2 b).1 = t := by rw [h]
    rw [← ht]
    unfold runM
    rw [hp]
    rcases hc : env.cancelSpot with ce | cu <;>
      [skip; rcases hr : readyLoop env aim.2.1 aim.2.2 f2 0 with ⟨t4, r4⟩] <;>
      [simp [seqT, hs, hq, cancelStep, hc];
       cases r4 <;> simp [seqT, hs, hq, cancelStep, hc, hr]]
  intro env s kk f1 f2 b t r l h hmem
  have hpre3 : ∀ (t1 t2 t3 : List Ev) (gk : String × String)
      (sim : AMap Nat × List String × AMap String)
      (aim : Bool × AMap String × List String),
      provisionPhase env s kk = (t1, RunRes.ok gk) →
      submitPhase env gk.1 gk.2 b.descriptors [] [] [] = (t2, RunRes.ok sim) →
      spotPoll env sim.2.1 f1 0 sim.2.2 = (t3, RunRes.ok aim) →
      ∀ e ∈ t1 ++ t2 ++ t3, isCancelEv e = false ∧ laterEv e = false := by
    intro t1 t2 t3 gk sim aim hp hs hq e he
    simp only [List.mem_append] at he
    rcases he with (he | he) | he
    · exact preCancel_not_later (provision_events env s kk e (by simp only [hp]; exact he))
    · exact preCancel_not_later (submit_events env gk.1 gk.2 b.descriptors [] [] [] e
        (by simp only [hs]; exact he))
    · exact preCancel_not_later (spotPoll_events env sim.2.1 f1 0 sim.2.2 e
        (by simp only [hq]; exact he))
  rcases runM_split env s kk f1 f2 b with ⟨hpre, _⟩ |
    ⟨gk, sim, aim, t1, t2, t3, hp, hs, hq, hrest⟩
  · have hh := hpre (Ev.cancelSpot l) (by rw [h]; exact hmem)
    simp [preCancelEv] at hh
  · rcases hrest with ⟨ce, hc, htr, hres⟩ | ⟨hc, t4, r4, hr, hrest2⟩
    · rw [h] at htr
      simp only [Prod.fst] at htr
      have hl : l = sim.2.1 := by
        rw [htr] at hmem
        simp only [List.mem_append, List.mem_singleton] at hmem
        rcases hmem with ((hm | hm) | hm) | hm
        · exact absurd (hpre3 t1 t2 t3 gk sim aim hp hs hq _
            (List.mem_append.2 (Or.inl (List.mem_append.2 (Or.inl hm))))).1 (by simp [isCancelEv])
        · exact absurd (hpre3 t1 t2 t3 gk sim aim hp hs hq _
            (List.mem_append.2 (Or.inl (List.mem_append.2 (Or.inr hm))))).1 (by simp [isCancelEv])
        · exact absurd (hpre3 t1 t2 t3 gk sim aim hp hs hq _
            (List.mem_append.2 (Or.inr hm))).1 (by simp [isCancelEv])
        · injection hm with hm
      subst hl
      refine ⟨gk, sim, aim, t1, t2, t3, [], hp, hs, rfl, hq, ?_,
        hpre3 t1 t2 t3 gk sim aim hp hs hq, by simp⟩
      rw [htr]
    · rcases hrest2 with ⟨hne4, htr, hres⟩ | ⟨fl, hfl, htr, hres⟩
      · rw [h] at htr
        simp only [Prod.fst] at htr
        have ht4 : ∀ e ∈ t4, isCancelEv e = false := by
          intro e he
          exact (descInstEv_not_other (readyLoop_events env aim.2.1 aim.2.2 f2 0 e
            (by simp only [hr]; exact he))).2.2.1
        have hl : l = sim.2.1 := by
          rw [htr] at hmem
          simp only [List.mem_append, List.mem_singleton] at hmem
          rcases hmem with (((hm | hm) | hm) | hm) | hm
          · exact absurd (hpre3 t1 t2 t3 gk sim aim hp hs hq _
              (List.mem_append.2 (Or.inl (List.mem_append.2 (Or.inl hm))))).1 (by simp [isCancelEv])
          · exact absurd (hpre3 t1 t2 t3 gk sim aim hp hs hq _
              (List.mem_append.2 (Or.inl (List.mem_append.2 (Or.inr hm))))).1 (by simp [isCancelEv])
          · exact absurd (hpre3 t1 t2 t3 gk sim aim hp hs hq _
              (List.mem_append.2 (Or.inr hm))).1 (by simp [isCancelEv])
          · injection hm with hm
          · exact absurd (ht4 _ hm) (by simp [isCancelEv])
        subst hl
        refine ⟨gk, sim, aim, t1, t2, t3, t4, hp, hs, rfl, hq, ?_,
          hpre3 t1 t2 t3 gk sim aim hp hs hq, ht4⟩
        rw [htr]
        simp
      · rw [h] at htr
        simp only [Prod.fst] at htr
        have ht4 : ∀ e ∈ t4, isCancelEv e = false := by
          intro e he
          exact (descInstEv_not_other (readyLoop_events env aim.2.1 aim.2.2 f2 0 e
            (by simp only [hr]; exact he))).2.2.1
        have hpf := postFleet_no_cancel env gk.2 aim.1 sim.1 aim.2.2 fl
        have hl : l = sim.2.1 := by
          rw [htr] at hmem
          simp only [List.mem_append, List.mem_singleton] at hmem
          rcases hmem with ((((hm | hm) | hm) | hm) | hm) | hm
          · exact absurd (hpre3 t1 t2 t3 gk sim aim hp hs hq _
              (List.mem_append.2 (Or.inl (List.mem_append.2 (Or.inl hm))))).1 (by simp [isCancelEv])
          · exact absurd (hpre3 t1 t2 t3 gk sim aim hp hs hq _
              (List.mem_append.2 (Or.inl (List.mem_append.2 (Or.inr hm))))).1 (by simp [isCancelEv])
          · exact absurd (hpre3 t1 t2 t3 gk sim aim hp hs hq _
              (List.mem_append.2 (Or.inr hm))).1 (by simp [isCancelEv])
          · injection hm with hm
          · exact absurd (ht4 _ hm) (by simp [isCancelEv])
          · exact absurd (hpf _ hm) (by simp [isCancelEv])
        subst hl
        refine ⟨gk, sim, aim, t1, t2, t3,
          t4 ++ (postFleet env gk.2 aim.1 sim.1 aim.2.2 fl).1, hp, hs, rfl, hq, ?_,
          hpre3 t1 t2 t3 gk sim aim hp hs hq, ?_⟩
        · rw [htr]
          simp
        · intro e he
          rcases List.mem_append.1 he with he | he
          · exact ht4 e he
          · exact hpf e he

/-! ### Claim theorems: no handshake or authentication retry -/

theorem tcpLoop_events (env : ConnEnv) :
    ∀ (fuel k : Nat), ∀ e ∈ (tcpLoop env fuel k).1,
      e = ConnEv.tcpTry ∨ e = ConnEv.sleepSec 1 := by
  intro fuel
  induction fuel with
  | zero => intro k e he; simp [tcpLoop] at he
  | succ n ih =>
    intro k e he
    unfold tcpLoop at he
    rcases h1 : env.tcp k with _ | kind <;> simp [h1] at he
    · exact Or.inl he
    · rcases kind <;> simp at he <;>
        rcases he with rfl | he
      · exact Or.inl rfl
      · rcases he with rfl | he
        · exact Or.inr rfl
        · exact ih _ e he
      · exact Or.inl rfl
      · rcases he with rfl | he
        · exact Or.inr rfl
        · exact ih _ e he
      · exact Or.inl rfl
      · exact ih _ e he

/-- C7: `Session::connect` does not retry the SSH handshake or the
public-key authentication: once the TCP phase has succeeded and the
session object was created, a handshake failure is returned immediately
with exactly one handshake attempt and no authentication attempt in the
trace, and an authentication failure is returned immediately with exactly
one authentication attempt — for every address behaviour, key behaviour
and fuel. -/
theorem c7_no_handshake_auth_retry (env : ConnEnv) (fuel n : Nat)
    (htcp : (tcpLoop env fuel 0).2 = RunRes.ok n)
    (hsess : env.sessNew = Except.ok ()) :
    (∀ e, env.handshake = Except.error e →
        (sessionConnect env fuel).2 = RunRes.err ("Failed to perform ssh handshake: " ++ e)
        ∧ (sessionConnect env fuel).1.countP (fun ev => decide (ev = ConnEv.handshakeTry)) = 1
        ∧ (sessionConnect env fuel).1.countP (fun ev => decide (ev = ConnEv.authTry)) = 0)
    ∧ (∀ e, env.handshake = Except.ok () → env.auth = Except.error e →
        (sessionConnect env fuel).2
            = RunRes.err ("Failed to authenticate ssh session: " ++ e)
        ∧ (sessionConnect env fuel).1.countP (fun ev => decide (ev = ConnEv.handshakeTry)) = 1
        ∧ (sessionConnect env fuel).1.countP (fun ev => decide (ev = ConnEv.authTry)) = 1) := by
  have htt : ∀ p : ConnEv → Bool, p ConnEv.tcpTry = false → p (ConnEv.sleepSec 1) = false →
      (tcpLoop env fuel 0).1.countP p = 0 := by
    intro p h1 h2
    rw [List.countP_eq_zero]
    intro e he
    rcases tcpLoop_events env fuel 0 e he with rfl | rfl
    · simp [h1]
    · simp [h2]
  rcases ht : tcpLoop env fuel 0 with ⟨tt, rt⟩
  have hrt : rt = RunRes.ok n := by rw [ht] at htcp; exact htcp
  subst hrt
  have htt1 : (tcpLoop env fuel 0).1 = tt := by rw [ht]
  have hcount1 : tt.countP (fun ev => decide (ev = ConnEv.handshakeTry)) = 0 := by
    rw [← htt1]
    exact htt (fun ev => decide (ev = ConnEv.handshakeTry)) rfl rfl
  have hcount2 : tt.countP (fun ev => decide (ev = ConnEv.authTry)) = 0 := by
    rw [← htt1]
    exact htt (fun ev => decide (ev = ConnEv.authTry)) rfl rfl
  constructor
  · intro e he
    have hshape : sessionConnect env fuel
        = (tt ++ [ConnEv.handshakeTry],
           RunRes.err ("Failed to perform ssh handshake: " ++ e)) := by
      unfold sessionConnect
      rw [ht]
      simp [seqT, hsess, he]
    rw [hshape]
    refine ⟨rfl, ?_, ?_⟩ <;>
      simp [List.countP_append, List.countP_cons, hcount1, hcount2]
  · intro e hh ha
    have hshape : sessionConnect env fuel
        = (tt ++ [ConnEv.handshakeTry, ConnEv.authTry],
           RunRes.err ("Failed to authenticate ssh session: " ++ e)) := by
      unfold sessionConnect
      rw [ht]
      simp [seqT, hsess, hh, ha]
    rw [hshape]
    refine ⟨rfl, ?_, ?_⟩ <;>
      simp [List.countP_append, List.countP_cons, hcount1, hcount2]

/-! ### Concrete traces, counterexamples and witnesses -/

/-- The machine record built for instance `i1` by the readiness poller. -/
def machUp : Machine := ⟨none, "t2.micro", "172.31.0.5", "1.2.3.4", "ec2-1-2-3-4"⟩

/-- The same machine after bootstrap attached its session. -/
def machUpS : Machine := ⟨some (), "t2.micro", "172.31.0.5", "1.2.3.4", "ec2-1-2-3-4"⟩

/-- Trace of the happy-path run `runM envOk "S" "K" 3 2 bOk`. -/
def trOk : List Ev :=
  [Ev.createSG "flotilla_security_S" "Security group for Flotilla Spot Instances",
   Ev.authSG "sg-1", Ev.createKP "flotilla_key_K",
   Ev.reqSpot "g" 1 "ami-1" "t2.micro" ["sg-1"] "flotilla_key_K",
   Ev.descSpot ["r1"], Ev.sleepMs 500, Ev.descSpot ["r1"], Ev.cancelSpot ["r1"],
   Ev.descInst ["i1"], Ev.connectSSH "1.2.3.4:22", Ev.runSetup "g" "1.2.3.4",
   Ev.callCallback, Ev.termInst ["i1"], Ev.termInst ["i1"], Ev.delKP "flotilla_key_K"]

/-- Trace of the `all_active = false` run `runM envC1 "S" "K" 3 2 bC1`. -/
def trC1 : List Ev :=
  [Ev.createSG "flotilla_security_S" "Security group for Flotilla Spot Instances",
   Ev.authSG "sg-1", Ev.createKP "flotilla_key_K",
   Ev.reqSpot "g" 2 "ami-1" "t2.micro" ["sg-1"] "flotilla_key_K",
   Ev.descSpot ["r1", "r2"], Ev.cancelSpot ["r1", "r2"], Ev.descInst ["i1"],
   Ev.termInst ["i1"], Ev.termInst ["i1"], Ev.delKP "flotilla_key_K"]

/-- Trace of the failing-callback run `runM envC2 "S" "K" 3 2 bOk`. -/
def trC2 : List Ev :=
  [Ev.createSG "flotilla_security_S" "Security group for Flotilla Spot Instances",
   Ev.authSG "sg-1", Ev.createKP "flotilla_key_K",
   Ev.reqSpot "g" 1 "ami-1" "t2.micro" ["sg-1"] "flotilla_key_K",
   Ev.descSpot ["r1"], Ev.sleepMs 500, Ev.descSpot ["r1"], Ev.cancelSpot ["r1"],
   Ev.descInst ["i1"], Ev.connectSSH "1.2.3.4:22", Ev.runSetup "g" "1.2.3.4",
   Ev.callCallback]

/-- Trace of the failing-bootstrap run `runM envC4 "S" "K" 3 2 bOk`. -/
def trC4 : List Ev :=
  [Ev.createSG "flotilla_security_S" "Security group for Flotilla Spot Instances",
   Ev.authSG "sg-1", Ev.createKP "flotilla_key_K",
   Ev.reqSpot "g" 1 "ami-1" "t2.micro" ["sg-1"] "flotilla_key_K",
   Ev.descSpot ["r1"], Ev.sleepMs 500, Ev.descSpot ["r1"], Ev.cancelSpot ["r1"],
   Ev.descInst ["i1"], Ev.connectSSH "1.2.3.4:22", Ev.runSetup "g" "1.2.3.4"]

/-- Happy path except that both terminate calls fail with `denied`. -/
def envTermFail : Env := { envOk with terminate := fun _ => Except.error "denied" }

/-- A reachable host whose SSH handshake fails with `reset`. -/
def connEnvHsFail : ConnEnv :=
  ⟨fun _ => none, Except.ok (), Except.error "reset", Except.ok ()⟩

/-- A reachable host that rejects public-key authentication with
`denied`. -/
def connEnvAuthFail : ConnEnv :=
  ⟨fun _ => none, Except.ok (), Except.ok (), Except.error "denied"⟩

/-- C1 counterexample: in the run driven by `envC1` request `r2` settles
`failed`, so the poll classification yields `all_active = false`;
bootstrap and callback are indeed skipped (no connect/setup/callback
event), yet the run's trace contains both terminate calls and the
delete-key-pair call — the claim that teardown is skipped entirely on
this path is false. -/
theorem c1_inactive_counterexample :
    (spotPoll envC1 ["r1", "r2"] 3 0 [("r1", "g"), ("r2", "g")]).2
        = RunRes.ok (false, [("r2", "g"), ("i1", "g")], ["i1"])
    ∧ runM envC1 "S" "K" 3 2 bC1 = (trC1, RunRes.ok ())
    ∧ Ev.termInst ["i1"] ∈ trC1
    ∧ Ev.delKP "flotilla_key_K" ∈ trC1
    ∧ trC1.countP isCallEv = 0
    ∧ trC1.countP isBootEv = 0 := by decide

/-- Witness for C1 (amended): on the `all_active = false` path the
teardown is attempted — the terminate call with the collected instance
list and, the phase succeeding, the keypair deletion appear in the
post-fleet trace. -/
theorem c1_inactive_still_tears_down_witness :
    Ev.termInst ["i1"] ∈ (postFleet envC1 "flotilla_key_K" false [("g", 0)] ["i1"]
        [("g", [machUp])]).1
    ∧ Ev.delKP "flotilla_key_K" ∈ (postFleet envC1 "flotilla_key_K" false [("g", 0)] ["i1"]
        [("g", [machUp])]).1 :=
  ⟨(c1_inactive_still_tears_down envC1 "flotilla_key_K" [("g", 0)] ["i1"]
      [("g", [machUp])]).2.2.1,
   (c1_inactive_still_tears_down envC1 "flotilla_key_K" [("g", 0)] ["i1"]
      [("g", [machUp])]).2.2.2 (by decide)⟩

/-- C2 counterexample: in the run driven by `envC2` the callback is
invoked and fails with `boom`; the run resolves with that error but its
trace contains no terminate and no delete-key-pair call — the claim that
teardown is still attempted after a callback failure is false. -/
theorem c2_callback_counterexample :
    runM envC2 "S" "K" 3 2 bOk = (trC2, RunRes.err "flotilla main routine failed: boom")
    ∧ Ev.callCallback ∈ trC2
    ∧ trC2.countP isTermEv = 0
    ∧ trC2.countP isDelKPEv = 0 := by decide

/-- Witness for C2 (amended): with the failing callback the post-fleet
phase returns the callback error and stops at the callback event; with
the succeeding callback (`envOk`) the terminate call is issued. -/
theorem c2_callback_error_skips_teardown_witness :
    postFleet envC2 "flotilla_key_K" true [("g", 0)] ["i1"] [("g", [machUp])]
        = ([Ev.connectSSH "1.2.3.4:22", Ev.runSetup "g" "1.2.3.4"] ++ [Ev.callCallback],
           RunRes.err ("flotilla main routine failed: " ++ "boom"))
    ∧ Ev.termInst ["i1"] ∈ (postFleet envOk "flotilla_key_K" true [("g", 0)] ["i1"]
        [("g", [machUp])]).1 :=
  ⟨((c2_callback_error_skips_teardown envC2 "flotilla_key_K" [("g", 0)] ["i1"]
      [("g", [machUp])] [Ev.connectSSH "1.2.3.4:22", Ev.runSetup "g" "1.2.3.4"]
      [("g", [machUpS])] (by decide)).1 "boom" rfl).1,
   (c2_callback_error_skips_teardown envOk "flotilla_key_K" [("g", 0)] ["i1"]
      [("g", [machUp])] [Ev.connectSSH "1.2.3.4:22", Ev.runSetup "g" "1.2.3.4"]
      [("g", [machUpS])] (by decide)).2 rfl⟩

/-- C4 counterexample: in the run driven by `envC4` the group's bootstrap
closure fails with `boom`; the run aborts by PANIC (carrying the context
message) before the callback — the failure is not returned as the run's
`Result` value, refuting the claim that `run` resolves with that error. -/
theorem c4_bootstrap_counterexample :
    runM envC4 "S" "K" 3 2 bOk
        = (trC4, RunRes.panic "setup procedure for g machine failed: boom")
    ∧ RunRes.isErr (runM envC4 "S" "K" 3 2 bOk).2 = false
    ∧ Ev.callCallback ∉ trC4 := by decide

/-- Witness for C4 (amended): on the happy path the bootstrapped machine
carries its session, and in the panicking `envC4` run the callback was
never invoked. -/
theorem c4_session_iff_success_and_panic_abort_witness :
    machUpS.ssh = some () ∧ Ev.callCallback ∉ trC4 :=
  ⟨(c4_session_iff_success_and_panic_abort.1 envOk [("g", 0)] [("g", [machUp])]
      [("g", [machUpS])] (by decide)).1 ("g", [machUpS]) (by decide) machUpS (by decide),
   c4_session_iff_success_and_panic_abort.2.2 envC4 "S" "K" 3 2 bOk trC4
     "setup procedure for g machine failed: boom" (by decide)⟩

/-- Witness for C5: the happy-path poll exits on the settled response
after one sleep, and the single cancellation call of the run carries the
originally submitted id `r1` and precedes the later phases. -/
theorem c5_poll_exit_and_single_cancel_witness :
    ((∃ n, (spotPoll envOk ["r1"] 3 0 [("r1", "g")]).1 = pollPattern ["r1"] n)
      ∧ ∃ j resp, envOk.descSpot j = Except.ok resp ∧ anyOpen (resp.getD []) = false
          ∧ classifySpots [("r1", "g")] (resp.getD [])
              = RunRes.ok (true, [("i1", "g")], ["i1"]))
    ∧ (∃ gk sim aim t1 t2 t3 c,
        provisionPhase envOk "S" "K" = (t1, RunRes.ok gk)
        ∧ submitPhase envOk gk.1 gk.2 bOk.descriptors [] [] [] = (t2, RunRes.ok sim)
        ∧ ["r1"] = sim.2.1
        ∧ spotPoll envOk sim.2.1 3 0 sim.2.2 = (t3, RunRes.ok aim)
        ∧ trOk = (t1 ++ t2 ++ t3) ++ Ev.cancelSpot ["r1"] :: c
        ∧ (∀ e ∈ t1 ++ t2 ++ t3, isCancelEv e = false ∧ laterEv e = false)
        ∧ (∀ e ∈ c, isCancelEv e = false))
    ∧ Ev.cancelSpot ["r1"] ∈ trOk :=
  ⟨c5_poll_exit_and_single_cancel.1 envOk ["r1"] 3 0 [("r1", "g")]
      [Ev.descSpot ["r1"], Ev.sleepMs 500, Ev.descSpot ["r1"]]
      (true, [("i1", "g")], ["i1"]) (by decide),
   c5_poll_exit_and_single_cancel.2.1 envOk "S" "K" 3 2 bOk trOk (RunRes.ok ()) ["r1"]
     (by decide) (by decide),
   c5_poll_exit_and_single_cancel.2.2 envOk "S" "K" 3 2 bOk trOk (RunRes.ok ())
     ("sg-1", "flotilla_key_K") ([("g", 0)], ["r1"], [("r1", "g")])
     (true, [("i1", "g")], ["i1"])
     [Ev.createSG "flotilla_security_S" "Security group for Flotilla Spot Instances",
      Ev.authSG "sg-1", Ev.createKP "flotilla_key_K"]
     [Ev.reqSpot "g" 1 "ami-1" "t2.micro" ["sg-1"] "flotilla_key_K"]
     [Ev.descSpot ["r1"], Ev.sleepMs 500, Ev.descSpot ["r1"]]
     (by decide) (by decide) (by decide) (by decide)⟩

/-- Witness for C7: a handshake failure and an authentication failure are
each returned immediately with a single attempt in the trace. -/
theorem c7_no_handshake_auth_retry_witness :
    ((sessionConnect connEnvHsFail 1).2
        = RunRes.err ("Failed to perform ssh handshake: " ++ "reset")
      ∧ (sessionConnect connEnvHsFail 1).1.countP
          (fun ev => decide (ev = ConnEv.handshakeTry)) = 1
      ∧ (sessionConnect connEnvHsFail 1).1.countP
          (fun ev => decide (ev = ConnEv.authTry)) = 0)
    ∧ ((sessionConnect connEnvAuthFail 1).2
        = RunRes.err ("Failed to authenticate ssh session: " ++ "denied")
      ∧ (sessionConnect connEnvAuthFail 1).1.countP
          (fun ev => decide (ev = ConnEv.handshakeTry)) = 1
      ∧ (sessionConnect connEnvAuthFail 1).1.countP
          (fun ev => decide (ev = ConnEv.authTry)) = 1) :=
  ⟨(c7_no_handshake_auth_retry connEnvHsFail 1 0 (by decide) rfl).1 "reset" rfl,
   (c7_no_handshake_auth_retry connEnvAuthFail 1 0 (by decide) rfl).2 "denied" rfl rfl⟩

/-- Witness for C10: on the happy path the teardown trace is exactly the
two terminate calls followed by the keypair deletion; with failing
terminates the phase stops after the first call and returns its error;
and the successful run's whole trace ends with that teardown triple. -/
theorem c10_teardown_twice_then_delete_witness :
    (teardownPhase envOk ["i1"] "key").1
        = [Ev.termInst ["i1"], Ev.termInst ["i1"], Ev.delKP "key"]
    ∧ ((teardownPhase envTermFail ["i1"] "key").1 = [Ev.termInst ["i1"]]
        ∧ (teardownPhase envTermFail ["i1"] "key").2
            = RunRes.err ("Failed to terminate flotilla instances: " ++ "denied"))
    ∧ ∃ t0 inst kname, trOk = t0 ++ [Ev.termInst inst, Ev.termInst inst, Ev.delKP kname]
        ∧ ∀ e ∈ t0, isTermEv e = false ∧ isDelKPEv e = false :=
  ⟨(c10_teardown_twice_then_delete.1 envOk ["i1"] "key").2.1 (by decide),
   (c10_teardown_twice_then_delete.1 envTermFail ["i1"] "key").2.2.1 "denied" rfl,
   c10_teardown_twice_then_delete.2 envOk "S" "K" 3 2 bOk trOk (by decide)⟩

end Flotilla
